import Mathlib

/-!
# Weather station control loop (src/src/main.cpp)

A shallow embedding of the firmware's control logic.  The module-level variables
of `main.cpp` become the fields of one record, `Globals`; every function of the
source that the properties below talk about becomes a function on that record.
Readings of the outside world (`millis()`, `WiFi.status()`, `WiFi.SSID()`,
`M5.Lcd.width()`, the HTTP reply ...) are explicit arguments, and what the code
sends to the display is returned as a list of drawing commands.

Machine integers are mathematical integers with the wrap-around written out:
`u32` for `uint32_t` results, `i16` for `int16_t` results, `i8` for `int8_t`.
-/

namespace WeatherStation

/-! ## Machine arithmetic -/

/-- Value of an unsigned 32-bit result (`uint32_t`). -/
def u32 (n : Nat) : Nat := n % 4294967296

/-- Value of a signed 16-bit result (`int16_t`, two's complement narrowing). -/
def i16 (x : Int) : Int := (x + 32768) % 65536 - 32768

/-- Value of a signed 8-bit result (`int8_t`, two's complement narrowing). -/
def i8 (x : Int) : Int := (x + 128) % 256 - 128

/-! ## Data model -/

/-- The source's `enum class View : uint8_t`. -/
inductive View where
  | Status
  | WiFi
  | About
  deriving DecidableEq, Repr

/-- The source's `enum class WifiState : uint8_t`. -/
inductive WifiState where
  | Connecting
  | Connected
  | Portal
  | Error
  deriving DecidableEq, Repr

/-- The link status `wl_status_t` returned by `WiFi.status()`. -/
inductive WlStatus where
  | WL_NO_SHIELD
  | WL_IDLE_STATUS
  | WL_NO_SSID_AVAIL
  | WL_SCAN_COMPLETED
  | WL_CONNECTED
  | WL_CONNECT_FAILED
  | WL_CONNECTION_LOST
  | WL_DISCONNECTED
  deriving DecidableEq, Repr

/-- A network name with its passphrase, as kept by the persistent credential store. -/
structure Creds where
  ssid : String
  pass : String
  deriving DecidableEq, Repr

/-- The connect request handed to the radio: `WiFi.begin(WIFI_SSID, WIFI_PASS)` names
the credentials itself, `WiFi.begin()` makes the radio use whatever the persistent
store holds at that moment. -/
inductive ConnectCall where
  | withSecrets (ssid pass : String)
  | saved (stored : Option Creds)
  deriving DecidableEq, Repr

/-- The compile-time configuration of `secrets.h` (each macro defaults as in
`main.cpp` lines 13-38 when the header does not define it). -/
structure Config where
  WIFI_SSID : String := ""
  WIFI_PASS : String := ""
  WEATHER_LABEL : String := "DK"
  PORTAL_AP_PASS : String := ""
  deriving DecidableEq, Repr

/-- The source's `struct Rect`. -/
structure Rect where
  x : Int := 0
  y : Int := 0
  w : Int := 0
  h : Int := 0
  deriving DecidableEq, Repr

def kConnectTimeoutMs : Nat := 30000
def kPortalTimeoutMs : Nat := 180000
def kStatusPillH : Int := 28
def kWiFiPillH : Int := 24
def kTopBarH : Int := 34
def kFooterH : Int := 24
def kInfoLabelX : Int := 12
def kInfoValueX : Int := 108
def kInfoRowH : Int := 24
def kBrightnessActive : Nat := 60
def kBrightnessDim : Nat := 12
def kDimAfterMs : Nat := 20000

/-- The module-level variables of `main.cpp` (initial values as in the source),
followed by the state of the collaborators the code commands: the persistent
credential store, the radio's current connect request, and the background jobs
that exist. -/
structure Globals where
  gView : View := View.Status
  gWifiState : WifiState := WifiState.Connecting
  gConnectTarget : String := ""
  gConnectUsingSecrets : Bool := false
  gLastStaStatus : WlStatus := WlStatus.WL_DISCONNECTED
  gPortalActive : Bool := false
  gUiDirty : Bool := true
  gLastError : String := ""
  gWifiDeadlineMs : Nat := 0
  gPortalDeadlineMs : Nat := 0
  gUiNextRefreshMs : Nat := 0
  gLastDrawnView : View := View.Status
  gLastDrawnWifiState : WifiState := WifiState.Error
  gLastDrawnSSID : String := ""
  gLastDrawnIP : String := ""
  gLastDrawnRSSI : Int := -2147483648
  gLastDrawnError : String := ""
  gLastDrawnBatteryPct : Int := -1
  gLastDrawnCharging : Bool := false
  gBatteryNextSampleMs : Nat := 0
  gBatteryPctCached : Nat := 0
  gBatteryChargingCached : Bool := false
  gBatteryCachedValid : Bool := false
  gFooterRect : Rect := {}
  gTickerSprite : Bool := false
  gTickerW : Int := 0
  gTickerH : Int := 0
  gLastInteractionMs : Nat := 0
  gCurrentBrightness : Nat := 255
  gWeatherTask : Bool := false
  gWeatherTaskRunning : Bool := false
  gWeatherNextFetchMs : Nat := 0
  gFooterNextTickMs : Nat := 0
  gWeatherScrollPx : Int := 0
  gWeatherText : String := "Weather: (waiting for WiFi)"
  gWeatherHasData : Bool := false
  credStore : Option Creds := none
  connectCall : Option ConnectCall := none
  weatherJobs : Nat := 0
  deriving DecidableEq, Repr

/-! ## Connectivity lifecycle (main.cpp lines 799-919) -/

/-- The source's `uiMarkDirty`. -/
def uiMarkDirty (s : Globals) : Globals := { s with gUiDirty := true }

/-- The source's `wifiStartConnecting`; `now` is the value `millis()` returns, `st` the value
`WiFi.status()` returns after the connect request.  The radio set-up calls
(`WiFi.mode`, `setHostname`, `setAutoReconnect`, `setSleep`, `disconnect(false, false)`)
keep the stored credentials and have no other modelled effect.  Whether
`WiFi.begin(WIFI_SSID, WIFI_PASS)` also copies the secrets into the store is left out:
every later request of such a build names the secrets again. -/
def wifiStartConnecting (cfg : Config) (now : Nat) (st : WlStatus) (s : Globals) : Globals :=
  let s := { s with gLastError := "" }
  -- if (gPortalActive) { gWiFiManager.stopConfigPortal(); gPortalActive = false; }
  let s := if s.gPortalActive then { s with gPortalActive := false } else s
  let s := { s with gWifiState := WifiState.Connecting,
                    gWifiDeadlineMs := u32 (now + kConnectTimeoutMs) }
  let s :=
    if cfg.WIFI_SSID ≠ "" then
      { s with gConnectUsingSecrets := true, gConnectTarget := cfg.WIFI_SSID,
               connectCall := some (ConnectCall.withSecrets cfg.WIFI_SSID cfg.WIFI_PASS) }
    else
      { s with gConnectUsingSecrets := false, gConnectTarget := "",
               connectCall := some (ConnectCall.saved s.credStore) }
  let s := { s with gLastStaStatus := st }
  uiMarkDirty s

/-- The source's `wifiStartPortal`; `now` is the value `millis()` returns.
`gWiFiManager.resetSettings()` empties the credential store. -/
def wifiStartPortal (_cfg : Config) (resetFirst : Bool) (now : Nat) (s : Globals) : Globals :=
  let s := if s.gPortalActive then { s with gPortalActive := false } else s
  let s := if resetFirst then { s with credStore := none } else s
  let s := { s with gPortalActive := true, gWifiState := WifiState.Portal,
                    gPortalDeadlineMs := u32 (now + kPortalTimeoutMs) }
  uiMarkDirty s

/-- What one `wifiTick` observes: `st` is `WiFi.status()` on entry, `now` the first
`millis()` read of the call, `now2` a second read (made by `wifiStartPortal` after the
connect deadline was compared), `st2` the status read again by a nested
`wifiStartConnecting`, and `portalSave` the credentials the captive portal stored
while `gWiFiManager.process()` ran (none when nobody reconfigured the device). -/
structure TickEnv where
  st : WlStatus
  now : Nat
  now2 : Nat := now
  st2 : WlStatus := st
  portalSave : Option Creds := none
  deriving DecidableEq, Repr

/-- The source's `gWiFiManager.process()`: the portal serves its pending requests; a submitted
configuration is written to the credential store. -/
def wmProcess (portalSave : Option Creds) (s : Globals) : Globals :=
  match portalSave with
  | some c => { s with credStore := some c }
  | none => s

/-- The source's `wifiTick`. -/
def wifiTick (cfg : Config) (e : TickEnv) (s : Globals) : Globals :=
  if e.st = WlStatus.WL_CONNECTED then
    if s.gWifiState ≠ WifiState.Connected then
      let s := if s.gPortalActive then { s with gPortalActive := false } else s
      let s := { s with gWifiState := WifiState.Connected }
      uiMarkDirty s
    else s
  else
    let s := if e.st ≠ s.gLastStaStatus then uiMarkDirty { s with gLastStaStatus := e.st } else s
    if s.gWifiState = WifiState.Portal ∧ s.gPortalActive = true then
      let s := wmProcess e.portalSave s
      if e.now > s.gPortalDeadlineMs then
        uiMarkDirty { s with gPortalActive := false, gWifiState := WifiState.Error,
                             gLastError := "Portal timeout" }
      else s
    else if s.gWifiState = WifiState.Connecting then
      if e.st = WlStatus.WL_CONNECT_FAILED then wifiStartPortal cfg false e.now s
      else if e.now > s.gWifiDeadlineMs then wifiStartPortal cfg false e.now2 s
      else s
    else if s.gWifiState = WifiState.Connected then
      wifiStartConnecting cfg e.now e.st2 s
    else s

/-- One call into the lifecycle manager. -/
inductive WifiOp where
  | startConnecting (now : Nat) (st : WlStatus)
  | startPortal (resetFirst : Bool) (now : Nat)
  | tick (e : TickEnv)
  deriving DecidableEq, Repr

/-- Effect of one lifecycle call. -/
def applyOp (cfg : Config) (s : Globals) : WifiOp → Globals
  | WifiOp.startConnecting now st => wifiStartConnecting cfg now st s
  | WifiOp.startPortal resetFirst now => wifiStartPortal cfg resetFirst now s
  | WifiOp.tick e => wifiTick cfg e s

/-- Effect of a finite sequence of lifecycle calls, first call first. -/
def runOps (cfg : Config) (ops : List WifiOp) (s : Globals) : Globals :=
  ops.foldl (applyOp cfg) s

/-- The call is not a tick during which the captive portal stored new credentials. -/
def noReconfig : WifiOp → Bool
  | WifiOp.tick e => e.portalSave.isNone
  | _ => true

/-! ## Display and readings -/

/-- The palette (`kColorBg` ... `kColorBad`, fixed by `uiInit`). -/
inductive Color where
  | Bg
  | Panel
  | Text
  | Muted
  | Accent
  | Good
  | Warn
  | Bad
  deriving DecidableEq, Repr

/-- What the code sends to the display.  The primitives of the patch paths and of the
footer ticker are recorded one by one; the painters that only draw a fixed layout
(`drawTopBar`, `drawStatusView`, `drawWiFiView`, `drawAboutView`, `drawBatteryIcon`)
are recorded as one command each. -/
inductive DrawOp where
  | fillScreen (c : Color)
  | fillRect (x y w h : Int) (c : Color)
  | drawFastHLine (x y w : Int) (c : Color)
  | setTextColor (fg bg : Color)
  | drawString (text : String) (x y : Int) (font : Nat)
  | drawPill (x y w h : Int) (bg : Color) (label : String)
  | drawTopBar (active : View)
  | drawViewBody (v : View)
  | drawBatteryIcon (x y : Int) (pct : Nat) (charging : Bool)
  | spriteFill (c : Color)
  | spriteSetTextColor (fg bg : Color)
  | spriteDrawString (text : String) (x y : Int) (font : Nat)
  | spritePush (x y : Int)
  deriving DecidableEq, Repr

/-- Readings of the collaborators during one pass: `WiFi.status()`, `WiFi.SSID()`,
`WiFi.localIP().toString()`, `WiFi.RSSI()`, `M5.Lcd.width()`, `M5.Lcd.height()`, the
text width in font 2 (`textWidth(text, 2)`, the same font table for the screen and the
ticker sprite), and the battery gauge: `batteryLevel` is the value of
`static_cast<int>(M5.Axp.GetBatteryLevel() + 0.5f)`. -/
structure Hw where
  status : WlStatus
  ssid : String
  ip : String
  rssi : Int
  lcdW : Int
  lcdH : Int
  textWidth : String → Int
  batteryLevel : Int
  isCharging : Bool

/-- The source's `wifiStateLabel`. -/
def wifiStateLabel (s : Globals) : String :=
  match s.gWifiState with
  | WifiState.Connecting => "CONNECTING"
  | WifiState.Connected => "CONNECTED"
  | WifiState.Portal => "SETUP PORTAL"
  | WifiState.Error => "ERROR"

/-- The source's `wifiStateColor`. -/
def wifiStateColor (s : Globals) : Color :=
  match s.gWifiState with
  | WifiState.Connecting => Color.Warn
  | WifiState.Connected => Color.Good
  | WifiState.Portal => Color.Accent
  | WifiState.Error => Color.Bad

/-- The source's `clampU8`. -/
def clampU8 (v lo hi : Int) : Nat :=
  if v < lo then (lo % 256).toNat
  else if v > hi then (hi % 256).toNat
  else (v % 256).toNat

/-- The source's `getBatteryPercent`. -/
def getBatteryPercent (hw : Hw) : Nat := clampU8 hw.batteryLevel 0 100

/-- The source's `batterySampleTick`; `now` is the value `millis()` returns. -/
def batterySampleTick (hw : Hw) (now : Nat) (s : Globals) : Globals :=
  if s.gBatteryNextSampleMs ≠ 0 ∧ now < s.gBatteryNextSampleMs then s
  else
    { s with gBatteryNextSampleMs := u32 (now + 30000),
             gBatteryPctCached := getBatteryPercent hw,
             gBatteryChargingCached := hw.isCharging,
             gBatteryCachedValid := true }

/-- The footer geometry fixed by `uiInit` (lines 181 and 192-199): the footer rectangle,
the ticker width and height, and the ticker sprite. -/
def uiInit (hw : Hw) (s : Globals) : Globals :=
  let w := hw.lcdW
  let h := hw.lcdH
  let gFooterRect : Rect := { x := 0, y := i16 (h - kFooterH), w := w, h := kFooterH }
  let padX : Int := 8
  let batX := i16 (w - padX - 28 - 3)
  let textMaxW := i16 (batX - padX - 8)
  { s with gFooterRect := gFooterRect, gTickerW := textMaxW,
           gTickerH := i16 (gFooterRect.h - 1), gTickerSprite := true }

/-- The source's `uiDrawFooterWeatherOnly`.  The remainder is the C++ one (sign of the dividend). -/
def uiDrawFooterWeatherOnly (hw : Hw) (weatherText : String) (s : Globals) :
    Globals × List DrawOp :=
  let w := hw.lcdW
  let padX : Int := 8
  let batX := i16 (w - padX - 28 - 3)
  let textX0 := padX
  let textMaxW := i16 (batX - padX - 8)
  if s.gTickerSprite = false ∨ s.gTickerW ≠ textMaxW then
    let textY := i16 (s.gFooterRect.y + 5)
    (s, [DrawOp.setTextColor Color.Text Color.Panel, DrawOp.drawString weatherText textX0 textY 2])
  else
    let textY := i16 (Int.tdiv (s.gTickerH - 16) 2)
    let textW := hw.textWidth weatherText
    if textW ≤ textMaxW then
      ({ s with gWeatherScrollPx := 0 },
        [DrawOp.spriteFill Color.Panel, DrawOp.spriteSetTextColor Color.Text Color.Panel,
         DrawOp.spriteDrawString weatherText 0 textY 2,
         DrawOp.spritePush textX0 (s.gFooterRect.y + 1)])
    else
      let gap : Int := 24
      let total := i16 (textW + gap)
      let scroll := i16 (Int.tmod s.gWeatherScrollPx total)
      (s,
        [DrawOp.spriteFill Color.Panel, DrawOp.spriteSetTextColor Color.Text Color.Panel,
         DrawOp.spriteDrawString weatherText (-scroll) textY 2,
         DrawOp.spriteDrawString weatherText (-scroll + total) textY 2,
         DrawOp.spritePush textX0 (s.gFooterRect.y + 1)])

/-- The source's `uiDrawFooterFull`. -/
def uiDrawFooterFull (hw : Hw) (forceFull : Bool) (s : Globals) : Globals × List DrawOp :=
  let w := hw.lcdW
  let weatherLocal := s.gWeatherText
  let batPct : Nat := if s.gBatteryCachedValid then s.gBatteryPctCached else 0
  let charging : Bool := if s.gBatteryCachedValid then s.gBatteryChargingCached else false
  let batChanged : Bool :=
    decide (i8 batPct ≠ s.gLastDrawnBatteryPct) || decide (charging ≠ s.gLastDrawnCharging)
  if forceFull = false ∧ batChanged = false ∧ weatherLocal = "" then (s, [])
  else
    let padX : Int := 8
    let batX := i16 (w - padX - 28 - 3)
    let batY := i16 (s.gFooterRect.y + Int.tdiv (s.gFooterRect.h - 12) 2)
    let r := uiDrawFooterWeatherOnly hw weatherLocal s
    ({ r.1 with gLastDrawnBatteryPct := i8 batPct, gLastDrawnCharging := charging },
      [DrawOp.fillRect s.gFooterRect.x s.gFooterRect.y s.gFooterRect.w s.gFooterRect.h Color.Panel,
       DrawOp.drawFastHLine s.gFooterRect.x s.gFooterRect.y s.gFooterRect.w Color.Muted,
       DrawOp.drawBatteryIcon batX batY batPct charging] ++ r.2)

/-- The source's `uiDrawFull`. -/
def uiDrawFull (hw : Hw) (s : Globals) : Globals × List DrawOp :=
  let r := uiDrawFooterFull hw true s
  ({ r.1 with gLastDrawnView := r.1.gView, gLastDrawnWifiState := r.1.gWifiState,
              gLastDrawnSSID := hw.ssid, gLastDrawnIP := hw.ip, gLastDrawnRSSI := hw.rssi,
              gLastDrawnError := r.1.gLastError },
    [DrawOp.fillScreen Color.Bg, DrawOp.drawTopBar s.gView, DrawOp.drawViewBody s.gView] ++ r.2)

/-- The source's `clearLine`. -/
def clearLine (x y w : Int) : DrawOp := DrawOp.fillRect x y w 18 Color.Bg

/-- The source's `uiUpdateDynamicStatus`. -/
def uiUpdateDynamicStatus (hw : Hw) (s : Globals) : Globals × List DrawOp :=
  let w := hw.lcdW
  let pillY : Int := kTopBarH + 14
  let r1 : Globals × List DrawOp :=
    if s.gWifiState ≠ s.gLastDrawnWifiState then
      ({ s with gLastDrawnWifiState := s.gWifiState },
        [DrawOp.drawPill 12 pillY (i16 (w - 24)) kStatusPillH (wifiStateColor s) (wifiStateLabel s)])
    else (s, [])
  if hw.status ≠ WlStatus.WL_CONNECTED then r1
  else
    let y0 := i16 (pillY + kStatusPillH + 12)
    let valueX := kInfoValueX
    let valueW := i16 (w - kInfoValueX - 12)
    let ssid := hw.ssid
    let ip := hw.ip
    let rssi := hw.rssi
    let r2 : Globals × List DrawOp :=
      if ssid ≠ r1.1.gLastDrawnSSID then
        ({ r1.1 with gLastDrawnSSID := ssid },
          r1.2 ++ [clearLine valueX (i16 (y0 + kInfoRowH)) valueW,
                   DrawOp.setTextColor Color.Text Color.Bg,
                   DrawOp.drawString ssid valueX (y0 + kInfoRowH) 2])
      else r1
    let r3 : Globals × List DrawOp :=
      if ip ≠ r2.1.gLastDrawnIP then
        ({ r2.1 with gLastDrawnIP := ip },
          r2.2 ++ [clearLine valueX (i16 (y0 + kInfoRowH * 2)) valueW,
                   DrawOp.setTextColor Color.Text Color.Bg,
                   DrawOp.drawString ip valueX (y0 + kInfoRowH * 2) 2])
      else r2
    if rssi ≠ r3.1.gLastDrawnRSSI then
      ({ r3.1 with gLastDrawnRSSI := rssi },
        r3.2 ++ [clearLine valueX (i16 (y0 + kInfoRowH * 3)) valueW,
                 DrawOp.setTextColor Color.Text Color.Bg,
                 DrawOp.drawString (toString rssi ++ " dBm") valueX (y0 + kInfoRowH * 3) 2])
    else r3

/-- The source's `uiUpdateDynamicWiFi`. -/
def uiUpdateDynamicWiFi (hw : Hw) (s : Globals) : Globals × List DrawOp :=
  let w := hw.lcdW
  let titleY : Int := kTopBarH + 14
  let pillY : Int := i16 (titleY + 34)
  let r1 : Globals × List DrawOp :=
    if s.gWifiState ≠ s.gLastDrawnWifiState then
      ({ s with gLastDrawnWifiState := s.gWifiState },
        [DrawOp.drawPill 12 pillY (i16 (w - 24)) kWiFiPillH (wifiStateColor s) (wifiStateLabel s)])
    else (s, [])
  if hw.status ≠ WlStatus.WL_CONNECTED then
    if r1.1.gWifiState = WifiState.Error ∧ r1.1.gLastError ≠ r1.1.gLastDrawnError then
      (uiMarkDirty r1.1, r1.2)
    else r1
  else
    let y0 := i16 (pillY + kWiFiPillH + 12)
    let valueX := kInfoValueX
    let valueW := i16 (w - kInfoValueX - 12)
    let ssid := hw.ssid
    let ip := hw.ip
    let r2 : Globals × List DrawOp :=
      if ssid ≠ r1.1.gLastDrawnSSID then
        ({ r1.1 with gLastDrawnSSID := ssid },
          r1.2 ++ [clearLine valueX y0 valueW,
                   DrawOp.setTextColor Color.Text Color.Bg,
                   DrawOp.drawString ssid valueX y0 2])
      else r1
    if ip ≠ r2.1.gLastDrawnIP then
      ({ r2.1 with gLastDrawnIP := ip },
        r2.2 ++ [clearLine valueX (i16 (y0 + kInfoRowH)) valueW,
                 DrawOp.setTextColor Color.Text Color.Bg,
                 DrawOp.drawString ip valueX (y0 + kInfoRowH) 2])
    else r2

/-- The source's `uiUpdateDynamic`. -/
def uiUpdateDynamic (hw : Hw) (s : Globals) : Globals × List DrawOp :=
  if s.gView ≠ s.gLastDrawnView then (uiMarkDirty s, [])
  else
    match s.gView with
    | View.Status => uiUpdateDynamicStatus hw s
    | View.WiFi => uiUpdateDynamicWiFi hw s
    | View.About => (s, [])

/-- The source's `footerTick`; `now` is the first `millis()` read, `nowB` the one made by
`batterySampleTick`. -/
def footerTick (hw : Hw) (now nowB : Nat) (s : Globals) : Globals × List DrawOp :=
  if now < s.gFooterNextTickMs then (s, [])
  else
    let s := { s with gFooterNextTickMs := u32 (now + 250) }
    let weatherLocal := s.gWeatherText
    let w := hw.lcdW
    let padX : Int := 8
    let batX := i16 (w - padX - 28 - 3)
    let textMaxW := i16 (batX - padX - 8)
    let textW := hw.textWidth weatherLocal
    let shouldScroll : Bool := decide (textW > textMaxW)
    let s := if shouldScroll then { s with gWeatherScrollPx := i16 (s.gWeatherScrollPx + 2) } else s
    let s := batterySampleTick hw nowB s
    let batChanged : Bool :=
      decide (i8 s.gBatteryPctCached ≠ s.gLastDrawnBatteryPct) ||
      decide (s.gBatteryChargingCached ≠ s.gLastDrawnCharging)
    if batChanged then uiDrawFooterFull hw false s
    else if shouldScroll then uiDrawFooterWeatherOnly hw weatherLocal s
    else (s, [])

/-- The state after `n` footer ticks, the k-th made at clock time `250 * k`. -/
def footerTicks (hw : Hw) : Nat → Globals → Globals
  | 0, s => s
  | n + 1, s => (footerTick hw (250 * (n + 1)) (250 * (n + 1)) (footerTicks hw n s)).1

/-- The source's `powerTick`; `now` is the value `millis()` returns.  The second component tells
whether `M5.Lcd.setBrightness` was called. -/
def powerTick (now : Nat) (s : Globals) : Globals × Bool :=
  let shouldDim : Bool := decide (u32 (now + 4294967296 - s.gLastInteractionMs) > kDimAfterMs)
  let target := if shouldDim then kBrightnessDim else kBrightnessActive
  if target ≠ s.gCurrentBrightness then ({ s with gCurrentBrightness := target }, true)
  else (s, false)

/-! ## Background fetch job (main.cpp lines 671-767) -/

/-- The source's `wmoCodeToShortText`. -/
def wmoCodeToShortText (code : Int) : String :=
  if code = 0 then "Clear"
  else if code ≤ 2 then "Mostly clear"
  else if code = 3 then "Cloudy"
  else if code = 45 ∨ code = 48 then "Fog"
  else if code ≥ 51 ∧ code ≤ 57 then "Drizzle"
  else if code ≥ 61 ∧ code ≤ 67 then "Rain"
  else if code ≥ 71 ∧ code ≤ 77 then "Snow"
  else if code ≥ 80 ∧ code ≤ 82 then "Showers"
  else if code ≥ 85 ∧ code ≤ 86 then "Snow showers"
  else if code ≥ 95 then "Thunder"
  else "Weather"

/-- A `float` read from the JSON document: not a number, an infinity, or a finite value
given by its sign bit and its magnitude `num / den` (every finite `float` is such a
fraction; `den` is positive). -/
inductive FloatVal where
  | nan
  | inf (neg : Bool)
  | fin (neg : Bool) (num den : Nat)
  deriving DecidableEq, Repr

/-- The source's `isnan`. -/
def FloatVal.isnan : FloatVal → Bool
  | FloatVal.nan => true
  | _ => false

/-- The integer nearest to `num / den`, a tie going to the even neighbour. -/
def roundHalfEven (num den : Nat) : Nat :=
  let q := num / den
  let r := num % den
  if 2 * r > den ∨ (2 * r = den ∧ q % 2 = 1) then q + 1 else q

/-- The C library's rendering of a `double` under the conversion `%.0f`: the value rounded
to an integer (ties to even) with no decimal point, preceded by a minus sign when the
sign bit is set. -/
def fmtF0 : FloatVal → String
  | FloatVal.nan => "nan"
  | FloatVal.inf neg => (if neg then "-" else "") ++ "inf"
  | FloatVal.fin neg num den => (if neg then "-" else "") ++ toString (roundHalfEven num den)

/-- The fields `weatherTaskMain` reads from the decoded document, each with the default
the code supplies when the field is absent (`| NAN`, `| -1`). -/
structure WeatherDoc where
  temp : FloatVal
  code : Int
  tmax : FloatVal
  tmin : FloatVal
  dcode : Int
  deriving DecidableEq, Repr

/-- The reply to `https.GET()`: the status code and, for the body, the result of
`deserializeJson` (none when decoding fails). -/
structure HttpReply where
  httpCode : Int
  doc : Option WeatherDoc
  deriving DecidableEq, Repr

/-- The longest run of leading characters that occupies at most `cap` bytes. -/
def takeBytes : Nat → List Char → List Char
  | _, [] => []
  | cap, c :: cs => if c.utf8Size ≤ cap then c :: takeBytes (cap - c.utf8Size) cs else []

/-- What `snprintf(out, sizeof(out), ...)` and the `strncpy` into `gWeatherText` keep of a
text: all of it when it has at most 159 bytes, else its first 159 bytes (a character cut
in two by the limit is dropped). -/
def clipText (t : String) : String :=
  if t.utf8ByteSize ≤ 159 then t else String.mk (takeBytes 159 t.data)

/-- The text `weatherTaskMain` formats into `out` (lines 693-743); `reply` is none when
`https.begin` fails. -/
def weatherOut (cfg : Config) (reply : Option HttpReply) : String :=
  match reply with
  | some r =>
    if r.httpCode = 200 then
      match r.doc with
      | some doc =>
        if doc.temp.isnan = false then
          cfg.WEATHER_LABEL ++ ": " ++ fmtF0 doc.temp ++ "°C " ++ wmoCodeToShortText doc.code ++
            " | Today " ++ fmtF0 doc.tmin ++ "–" ++ fmtF0 doc.tmax ++ "°C " ++
            wmoCodeToShortText doc.dcode
        else cfg.WEATHER_LABEL ++ " weather: update failed"
      | none => cfg.WEATHER_LABEL ++ " weather: parse error"
    else cfg.WEATHER_LABEL ++ " weather: HTTP " ++ toString r.httpCode
  | none => cfg.WEATHER_LABEL ++ " weather: TLS init failed"

/-- The source's `weatherTaskMain`; `reply` is the outcome of the fetch and `now` the value `millis()`
returns when the result is published.  `vTaskDelete(nullptr)` ends the job. -/
def weatherTaskMain (cfg : Config) (reply : Option HttpReply) (now : Nat) (s : Globals) :
    Globals :=
  { s with gWeatherText := clipText (weatherOut cfg reply),
           gWeatherHasData := true,
           gWeatherNextFetchMs := u32 (now + 30 * 60 * 1000),
           gWeatherScrollPx := 0,
           gWeatherTaskRunning := false,
           gWeatherTask := false,
           weatherJobs := s.weatherJobs - 1 }

/-- The source's `weatherTick`; `st` is `WiFi.status()`, `now` the value `millis()` returns, and
`created` tells whether `xTaskCreatePinnedToCore` managed to create the job. -/
def weatherTick (st : WlStatus) (now : Nat) (created : Bool) (s : Globals) : Globals :=
  if st ≠ WlStatus.WL_CONNECTED then s
  else if s.gWeatherTaskRunning then s
  else if s.gWeatherNextFetchMs ≠ 0 ∧ now < s.gWeatherNextFetchMs then s
  else
    let s := { s with gWeatherTaskRunning := true }
    if created then { s with gWeatherTask := true, weatherJobs := s.weatherJobs + 1 } else s

/-- One step of the fetch machinery: a `weatherTick` of the control loop, or the
completion of a job. -/
inductive WeatherEvent where
  | tick (st : WlStatus) (now : Nat) (created : Bool)
  | complete (reply : Option HttpReply) (now : Nat)
  deriving DecidableEq, Repr

/-- Effect of one step; a job can complete only while it exists. -/
def weatherStep (cfg : Config) (s : Globals) : WeatherEvent → Globals
  | WeatherEvent.tick st now created => weatherTick st now created s
  | WeatherEvent.complete reply now =>
    if s.weatherJobs = 0 then s else weatherTaskMain cfg reply now s

/-- Effect of a finite interleaving of ticks and completions, first step first. -/
def weatherRun (cfg : Config) (evs : List WeatherEvent) (s : Globals) : Globals :=
  evs.foldl (weatherStep cfg) s

/-! ## Input dispatch (main.cpp lines 659, 921-962 and 984-1001) -/

/-- The input events of one control-loop iteration: the two swipe gestures
(`wasDetected()`), the six hit-regions (`gHitX && gHitX->wasPressed()`), the three
hardware buttons (`M5.BtnX.wasPressed()`), the value `now` that `millis()` returns
while the events are dispatched, and the status `st` that `WiFi.status()` returns to a
`wifiStartConnecting` they trigger. -/
structure InputEnv where
  swipeLeft : Bool := false
  swipeRight : Bool := false
  tabStatus : Bool := false
  tabWiFi : Bool := false
  tabAbout : Bool := false
  hitPortal : Bool := false
  hitRetry : Bool := false
  hitForget : Bool := false
  btnA : Bool := false
  btnB : Bool := false
  btnC : Bool := false
  now : Nat := 0
  st : WlStatus := WlStatus.WL_DISCONNECTED
  deriving DecidableEq, Repr

/-- The source's `noteInteraction`. -/
def noteInteraction (now : Nat) (s : Globals) : Globals := { s with gLastInteractionMs := now }

/-- The step Status, WiFi, About, Status written out at swipe left and button B. -/
def viewForward (v : View) : View :=
  if v = View.Status then View.WiFi
  else if v = View.WiFi then View.About
  else View.Status

/-- The step Status, About, WiFi, Status written out at swipe right and button C. -/
def viewBackward (v : View) : View :=
  if v = View.Status then View.About
  else if v = View.About then View.WiFi
  else View.Status

/-- The source's `inputTick`.  The second component lists the lifecycle calls it made. -/
def inputTick (cfg : Config) (inp : InputEnv) (s : Globals) : Globals × List WifiOp :=
  let s :=
    if inp.swipeLeft then
      uiMarkDirty { noteInteraction inp.now s with gView := viewForward s.gView }
    else if inp.swipeRight then
      uiMarkDirty { noteInteraction inp.now s with gView := viewBackward s.gView }
    else s
  let s :=
    if inp.tabStatus then uiMarkDirty { noteInteraction inp.now s with gView := View.Status }
    else if inp.tabWiFi then uiMarkDirty { noteInteraction inp.now s with gView := View.WiFi }
    else if inp.tabAbout then uiMarkDirty { noteInteraction inp.now s with gView := View.About }
    else s
  if s.gView ≠ View.WiFi then (s, [])
  else if inp.hitPortal then
    (wifiStartPortal cfg false inp.now (noteInteraction inp.now s),
      [WifiOp.startPortal false inp.now])
  else if inp.hitRetry then
    (wifiStartConnecting cfg inp.now inp.st (noteInteraction inp.now s),
      [WifiOp.startConnecting inp.now inp.st])
  else if inp.hitForget then
    (wifiStartPortal cfg true inp.now (noteInteraction inp.now s),
      [WifiOp.startPortal true inp.now])
  else (s, [])

/-- The hardware-button part of `loop` (lines 984-1001), which runs before `wifiTick` and
`inputTick`.  The second component lists the lifecycle calls it made. -/
def loopButtons (cfg : Config) (inp : InputEnv) (s : Globals) : Globals × List WifiOp :=
  let r : Globals × List WifiOp :=
    if inp.btnA then
      (wifiStartPortal cfg false inp.now (noteInteraction inp.now s),
        [WifiOp.startPortal false inp.now])
    else (s, [])
  let s := r.1
  let s :=
    if inp.btnB then uiMarkDirty { noteInteraction inp.now s with gView := viewForward s.gView }
    else s
  let s :=
    if inp.btnC then uiMarkDirty { noteInteraction inp.now s with gView := viewBackward s.gView }
    else s
  (s, r.2)

/-- Effect of a finite sequence of `wifiTick` calls, first call first. -/
def runTicks (cfg : Config) (es : List TickEnv) (s : Globals) : Globals :=
  es.foldl (fun t e => wifiTick cfg e t) s

/-- Effect of a finite sequence of footer ticks, each with its readings
(display and battery, the two clock values), first tick first. -/
def runFooterTicks (ticks : List (Hw × Nat × Nat)) (s : Globals) : Globals :=
  ticks.foldl (fun t r => (footerTick r.1 r.2.1 r.2.2 t).1) s

/-! ## Invariants and proof devices -/

/-- The portal flag is raised only in state `Portal`. -/
def PortalInv (s : Globals) : Prop :=
  s.gPortalActive = true → s.gWifiState = WifiState.Portal

/-- The state after `wifiTick` has recorded a changed link status (lines 881-885). -/
def statusNoted (st : WlStatus) (s : Globals) : Globals :=
  if st ≠ s.gLastStaStatus then uiMarkDirty { s with gLastStaStatus := st } else s

/-- At most one job exists, and while one exists the running flag is set. -/
def WeatherInv (s : Globals) : Prop :=
  s.weatherJobs ≤ 1 ∧ (s.weatherJobs = 1 → s.gWeatherTaskRunning = true)

/-- The view that `inputTick` finds active when it reaches the dispatch of the WiFi
actions (line 950): the view after the swipe and the tab handling. -/
def viewAtDispatch (inp : InputEnv) (v : View) : View :=
  let v :=
    if inp.swipeLeft then viewForward v
    else if inp.swipeRight then viewBackward v
    else v
  if inp.tabStatus then View.Status
  else if inp.tabWiFi then View.WiFi
  else if inp.tabAbout then View.About
  else v

/-- The state in which `inputTick` reaches the dispatch of the WiFi actions (line 950):
the state after the swipe and the tab handling (lines 922-948). -/
def inputNav (inp : InputEnv) (s : Globals) : Globals :=
  let s :=
    if inp.swipeLeft then
      uiMarkDirty { noteInteraction inp.now s with gView := viewForward s.gView }
    else if inp.swipeRight then
      uiMarkDirty { noteInteraction inp.now s with gView := viewBackward s.gView }
    else s
  if inp.tabStatus then uiMarkDirty { noteInteraction inp.now s with gView := View.Status }
  else if inp.tabWiFi then uiMarkDirty { noteInteraction inp.now s with gView := View.WiFi }
  else if inp.tabAbout then uiMarkDirty { noteInteraction inp.now s with gView := View.About }
  else s

/-- The two states show the same message on the same ticker set-up. -/
def SameTicker (a b : Globals) : Prop :=
  a.gWeatherText = b.gWeatherText ∧ a.gTickerSprite = b.gTickerSprite ∧
  a.gTickerW = b.gTickerW ∧ a.gTickerH = b.gTickerH ∧ a.gFooterRect = b.gFooterRect

/-! ## Example inputs -/

/-- A build without `secrets.h`: all macros at their defaults. -/
def exampleConfig : Config := {}

/-- The variables as initialised at program start. -/
def exampleBoot : Globals := {}

/-- A tick that sees an authentication failure 5 s after start. -/
def exampleAuthFail : TickEnv := { st := WlStatus.WL_CONNECT_FAILED, now := 5000 }

/-- A portal session opened at start, with the deadline 180 s later. -/
def examplePortal : Globals :=
  { gWifiState := WifiState.Portal, gPortalActive := true, gPortalDeadlineMs := 180000 }

/-- A tick after the portal deadline, link down. -/
def exampleLate : TickEnv := { st := WlStatus.WL_DISCONNECTED, now := 180001 }

/-- A tick that sees the link up. -/
def exampleUp : TickEnv := { st := WlStatus.WL_CONNECTED, now := 2000 }

/-- A device that has credentials in its store. -/
def exampleStored : Globals :=
  { credStore := some { ssid := "HomeNet", pass := "hunter22" } }

/-- Boot, authentication failure, manual retry, link up, link lost, connect timeout. -/
def exampleOps : List WifiOp :=
  [ WifiOp.tick exampleAuthFail,
    WifiOp.startConnecting 6000 WlStatus.WL_DISCONNECTED,
    WifiOp.tick exampleUp,
    WifiOp.tick { st := WlStatus.WL_CONNECTION_LOST, now := 9000 },
    WifiOp.tick { st := WlStatus.WL_DISCONNECTED, now := 40000 } ]

/-- A 320 x 240 display on a connected link; every text measures 300 px in font 2. -/
def exampleHw : Hw :=
  { status := WlStatus.WL_CONNECTED, ssid := "HomeNet", ip := "192.168.1.42", rssi := -58,
    lcdW := 320, lcdH := 240, textWidth := fun _ => 300, batteryLevel := 80,
    isCharging := false }

/-- The Status view on a connected device after `uiInit`, battery sampled at 80 %. -/
def exampleScreen : Globals :=
  uiInit exampleHw
    { gWifiState := WifiState.Connected, gBatteryPctCached := 80, gBatteryCachedValid := true,
      gBatteryNextSampleMs := 30000 }

/-- The screen right after a fetch published a message wider than the ticker: offset 0. -/
def exampleScrollStart : Globals :=
  { exampleScreen with
      gWeatherText := "DK: -10°C Mostly clear | Today -12–-5°C Snow showers",
      gWeatherHasData := true, gWeatherScrollPx := 0, gLastDrawnBatteryPct := 80 }

/-- The same screen showing a message wider than the ticker, the scroll offset at 32766
after 16383 scrolling footer ticks, the battery icon up to date. -/
def exampleScrollEdge : Globals :=
  { exampleScreen with
      gWeatherText := "DK: -10°C Mostly clear | Today -12–-5°C Snow showers",
      gWeatherHasData := true, gWeatherScrollPx := 32766, gLastDrawnBatteryPct := 80 }

/-- A job is armed, a second tick finds it running, it completes with HTTP 503, a tick
inside the cooldown does nothing, and a tick after 30 minutes arms the next job. -/
def exampleFetches : List WeatherEvent :=
  [ WeatherEvent.tick WlStatus.WL_CONNECTED 1000 true,
    WeatherEvent.tick WlStatus.WL_CONNECTED 1010 true,
    WeatherEvent.complete (some { httpCode := 503, doc := none }) 3000,
    WeatherEvent.tick WlStatus.WL_CONNECTED 3010 true,
    WeatherEvent.tick WlStatus.WL_CONNECTED 1803000 true ]

/-- After a forget: the portal runs untouched until it times out. -/
def exampleAfterForget : List WifiOp :=
  [ WifiOp.tick { st := WlStatus.WL_DISCONNECTED, now := 8000 },
    WifiOp.tick { st := WlStatus.WL_DISCONNECTED, now := 190000 } ]

/-- A device whose link is up, in state Connected. -/
def exampleOnline : Globals := { gWifiState := WifiState.Connected, gUiDirty := false }

/-- A device whose portal timed out. -/
def exampleFailed : Globals :=
  { gWifiState := WifiState.Error, gLastError := "Portal timeout", gWifiDeadlineMs := 30000,
    gPortalDeadlineMs := 210000 }

/-- Ticks long after every deadline, with changing statuses and an authentication failure. -/
def exampleIdleTicks : List TickEnv :=
  [ { st := WlStatus.WL_DISCONNECTED, now := 220000 },
    { st := WlStatus.WL_CONNECT_FAILED, now := 230000 },
    { st := WlStatus.WL_NO_SSID_AVAIL, now := 4000000000 } ]

/-- A lit display last touched 25 s before the clock wrapped. -/
def exampleIdle : Globals := { gLastInteractionMs := 4294947296, gCurrentBrightness := 60 }

/-- The 320 x 240 display with a text measure of 180 px, battery now at 79 %. -/
def exampleHwShort : Hw :=
  { status := WlStatus.WL_CONNECTED, ssid := "HomeNet", ip := "192.168.1.42", rssi := -58,
    lcdW := 320, lcdH := 240, textWidth := fun _ => 180, batteryLevel := 79,
    isCharging := true }

/-- Three footer ticks, the last one after the next battery sample is due. -/
def exampleFooterTicks : List (Hw × Nat × Nat) :=
  [ (exampleHwShort, 250, 250), (exampleHwShort, 500, 501), (exampleHwShort, 30000, 30001) ]

/-- Hardware button A pressed, nothing else. -/
def examplePressA : InputEnv := { btnA := true, now := 1000 }

/-- A tap on the Retry hit-region, nothing else. -/
def exampleTapRetry : InputEnv := { hitRetry := true, now := 1000 }

/-- A swipe left together with a tap on the Retry hit-region. -/
def exampleSwipeAndRetry : InputEnv := { swipeLeft := true, hitRetry := true, now := 1000 }

/-! ## Theorems: connectivity lifecycle -/

theorem wifiStartConnecting_state (cfg : Config) (now : Nat) (st : WlStatus) (s : Globals) :
    (wifiStartConnecting cfg now st s).gWifiState = WifiState.Connecting ∧
    (wifiStartConnecting cfg now st s).gPortalActive = false := by
  cases hp : s.gPortalActive <;> by_cases hc : cfg.WIFI_SSID = "" <;>
    simp [wifiStartConnecting, uiMarkDirty, hp, hc]

theorem wifiStartPortal_state (cfg : Config) (b : Bool) (now : Nat) (s : Globals) :
    (wifiStartPortal cfg b now s).gWifiState = WifiState.Portal ∧
    (wifiStartPortal cfg b now s).gPortalActive = true := by
  cases hp : s.gPortalActive <;> cases b <;> simp [wifiStartPortal, uiMarkDirty, hp]

theorem portalInv_wifiStartConnecting (cfg : Config) (now : Nat) (st : WlStatus) (s : Globals) :
    PortalInv (wifiStartConnecting cfg now st s) := by
  intro h
  rw [(wifiStartConnecting_state cfg now st s).2] at h
  cases h

theorem portalInv_wifiStartPortal (cfg : Config) (b : Bool) (now : Nat) (s : Globals) :
    PortalInv (wifiStartPortal cfg b now s) :=
  fun _ => (wifiStartPortal_state cfg b now s).1

theorem statusNoted_fields (st : WlStatus) (s : Globals) :
    (statusNoted st s).gWifiState = s.gWifiState ∧
    (statusNoted st s).gPortalActive = s.gPortalActive ∧
    (statusNoted st s).gLastError = s.gLastError ∧
    (statusNoted st s).gWifiDeadlineMs = s.gWifiDeadlineMs ∧
    (statusNoted st s).gPortalDeadlineMs = s.gPortalDeadlineMs ∧
    (statusNoted st s).credStore = s.credStore ∧
    (statusNoted st s).connectCall = s.connectCall := by
  unfold statusNoted uiMarkDirty
  split <;> simp

theorem wifiTick_connected_same (cfg : Config) (e : TickEnv) (s : Globals)
    (hc : e.st = WlStatus.WL_CONNECTED) (hs : s.gWifiState = WifiState.Connected) :
    wifiTick cfg e s = s := by
  simp [wifiTick, hc, hs]

theorem wifiTick_connected_other (cfg : Config) (e : TickEnv) (s : Globals)
    (hc : e.st = WlStatus.WL_CONNECTED) (hs : s.gWifiState ≠ WifiState.Connected) :
    wifiTick cfg e s =
      { s with gPortalActive := false, gWifiState := WifiState.Connected, gUiDirty := true } := by
  cases hp : s.gPortalActive <;> simp [wifiTick, hc, hs, hp, uiMarkDirty]

theorem wifiTick_not_connected (cfg : Config) (e : TickEnv) (s : Globals)
    (hc : e.st ≠ WlStatus.WL_CONNECTED) :
    wifiTick cfg e s =
      if (statusNoted e.st s).gWifiState = WifiState.Portal ∧
          (statusNoted e.st s).gPortalActive = true then
        if e.now > (wmProcess e.portalSave (statusNoted e.st s)).gPortalDeadlineMs then
          uiMarkDirty { wmProcess e.portalSave (statusNoted e.st s) with
            gPortalActive := false, gWifiState := WifiState.Error,
            gLastError := "Portal timeout" }
        else wmProcess e.portalSave (statusNoted e.st s)
      else if (statusNoted e.st s).gWifiState = WifiState.Connecting then
        if e.st = WlStatus.WL_CONNECT_FAILED then
          wifiStartPortal cfg false e.now (statusNoted e.st s)
        else if e.now > (statusNoted e.st s).gWifiDeadlineMs then
          wifiStartPortal cfg false e.now2 (statusNoted e.st s)
        else statusNoted e.st s
      else if (statusNoted e.st s).gWifiState = WifiState.Connected then
        wifiStartConnecting cfg e.now e.st2 (statusNoted e.st s)
      else statusNoted e.st s := by
  unfold wifiTick
  rw [if_neg hc]
  rfl

theorem wmProcess_fields (p : Option Creds) (s : Globals) :
    (wmProcess p s).gWifiState = s.gWifiState ∧
    (wmProcess p s).gPortalActive = s.gPortalActive ∧
    (wmProcess p s).gLastError = s.gLastError ∧
    (wmProcess p s).gWifiDeadlineMs = s.gWifiDeadlineMs ∧
    (wmProcess p s).gPortalDeadlineMs = s.gPortalDeadlineMs ∧
    (wmProcess p s).gUiDirty = s.gUiDirty ∧
    (wmProcess p s).gLastStaStatus = s.gLastStaStatus ∧
    (wmProcess p s).connectCall = s.connectCall := by
  cases p <;> simp [wmProcess]

theorem wifiTick_portal (cfg : Config) (e : TickEnv) (s : Globals)
    (hc : e.st ≠ WlStatus.WL_CONNECTED) (hs : s.gWifiState = WifiState.Portal)
    (hp : s.gPortalActive = true) :
    wifiTick cfg e s =
      if e.now > s.gPortalDeadlineMs then
        { wmProcess e.portalSave (statusNoted e.st s) with
            gPortalActive := false, gWifiState := WifiState.Error,
            gLastError := "Portal timeout", gUiDirty := true }
      else wmProcess e.portalSave (statusNoted e.st s) := by
  obtain ⟨h1, h2, _, _, h5, _, _⟩ := statusNoted_fields e.st s
  obtain ⟨_, _, _, _, k5, _, _, _⟩ := wmProcess_fields e.portalSave (statusNoted e.st s)
  rw [wifiTick_not_connected cfg e s hc, h1, h2, k5, h5, if_pos ⟨hs, hp⟩]
  rfl

theorem wifiTick_connecting (cfg : Config) (e : TickEnv) (s : Globals)
    (hc : e.st ≠ WlStatus.WL_CONNECTED) (hs : s.gWifiState = WifiState.Connecting) :
    wifiTick cfg e s =
      if e.st = WlStatus.WL_CONNECT_FAILED then wifiStartPortal cfg false e.now (statusNoted e.st s)
      else if e.now > s.gWifiDeadlineMs then wifiStartPortal cfg false e.now2 (statusNoted e.st s)
      else statusNoted e.st s := by
  obtain ⟨h1, _, _, h4, _, _, _⟩ := statusNoted_fields e.st s
  rw [wifiTick_not_connected cfg e s hc, h1, h4, hs]
  simp

theorem wifiTick_lost (cfg : Config) (e : TickEnv) (s : Globals)
    (hc : e.st ≠ WlStatus.WL_CONNECTED) (hs : s.gWifiState = WifiState.Connected) :
    wifiTick cfg e s = wifiStartConnecting cfg e.now e.st2 (statusNoted e.st s) := by
  obtain ⟨h1, _, _, _, _, _, _⟩ := statusNoted_fields e.st s
  rw [wifiTick_not_connected cfg e s hc, h1, hs]
  simp

theorem wifiTick_idle (cfg : Config) (e : TickEnv) (s : Globals)
    (hc : e.st ≠ WlStatus.WL_CONNECTED)
    (hs : s.gWifiState = WifiState.Error ∨
          (s.gWifiState = WifiState.Portal ∧ s.gPortalActive = false)) :
    wifiTick cfg e s = statusNoted e.st s := by
  obtain ⟨h1, h2, _, _, _, _, _⟩ := statusNoted_fields e.st s
  rw [wifiTick_not_connected cfg e s hc, h1, h2]
  rcases hs with hs | ⟨hs, hp⟩
  · simp [hs]
  · simp [hs, hp]

theorem portalInv_wifiTick (cfg : Config) (e : TickEnv) (s : Globals) (h : PortalInv s) :
    PortalInv (wifiTick cfg e s) := by
  by_cases hc : e.st = WlStatus.WL_CONNECTED
  · by_cases hs : s.gWifiState = WifiState.Connected
    · rw [wifiTick_connected_same cfg e s hc hs]; exact h
    · rw [wifiTick_connected_other cfg e s hc hs]
      intro hp
      cases hp
  · obtain ⟨h1, h2, _, _, _, _, _⟩ := statusNoted_fields e.st s
    cases hs : s.gWifiState with
    | Connecting =>
      rw [wifiTick_connecting cfg e s hc hs]
      split
      · exact portalInv_wifiStartPortal _ _ _ _
      · split
        · exact portalInv_wifiStartPortal _ _ _ _
        · intro hp
          rw [h2] at hp
          rw [h1]
          exact h hp
    | Connected =>
      rw [wifiTick_lost cfg e s hc hs]
      exact portalInv_wifiStartConnecting _ _ _ _
    | Portal =>
      cases hp : s.gPortalActive with
      | true =>
        rw [wifiTick_portal cfg e s hc hs hp]
        obtain ⟨k1, k2, _, _, _, _, _, _⟩ := wmProcess_fields e.portalSave (statusNoted e.st s)
        split
        · intro hq
          cases hq
        · intro _
          rw [k1, h1, hs]
      | false =>
        rw [wifiTick_idle cfg e s hc (Or.inr ⟨hs, hp⟩)]
        intro hq
        rw [h2, hp] at hq
        cases hq
    | Error =>
      rw [wifiTick_idle cfg e s hc (Or.inl hs)]
      intro hq
      rw [h2] at hq
      rw [h1]
      exact h hq

theorem portalInv_applyOp (cfg : Config) (op : WifiOp) (s : Globals) (h : PortalInv s) :
    PortalInv (applyOp cfg s op) := by
  cases op with
  | startConnecting now st => exact portalInv_wifiStartConnecting cfg now st s
  | startPortal b now => exact portalInv_wifiStartPortal cfg b now s
  | tick e => exact portalInv_wifiTick cfg e s h

theorem portalInv_runOps (cfg : Config) (ops : List WifiOp) (s : Globals) (h : PortalInv s) :
    PortalInv (runOps cfg ops s) := by
  induction ops generalizing s with
  | nil => exact h
  | cons op rest ih => exact ih (applyOp cfg s op) (portalInv_applyOp cfg op s h)

theorem wifiStartConnecting_credStore (cfg : Config) (now : Nat) (st : WlStatus) (s : Globals) :
    (wifiStartConnecting cfg now st s).credStore = s.credStore := by
  cases hp : s.gPortalActive <;> by_cases hc : cfg.WIFI_SSID = "" <;>
    simp [wifiStartConnecting, uiMarkDirty, hp, hc]

theorem wifiStartConnecting_connectCall (cfg : Config) (now : Nat) (st : WlStatus) (s : Globals) :
    (wifiStartConnecting cfg now st s).connectCall =
      some (if cfg.WIFI_SSID ≠ "" then ConnectCall.withSecrets cfg.WIFI_SSID cfg.WIFI_PASS
            else ConnectCall.saved s.credStore) := by
  cases hp : s.gPortalActive <;> by_cases hc : cfg.WIFI_SSID = "" <;>
    simp [wifiStartConnecting, uiMarkDirty, hp, hc]

theorem wifiStartPortal_credStore (cfg : Config) (b : Bool) (now : Nat) (s : Globals) :
    (wifiStartPortal cfg b now s).credStore = if b then none else s.credStore := by
  cases hp : s.gPortalActive <;> cases b <;> simp [wifiStartPortal, uiMarkDirty, hp]

theorem wifiTick_credStore (cfg : Config) (e : TickEnv) (s : Globals)
    (hsave : e.portalSave = none) : (wifiTick cfg e s).credStore = s.credStore := by
  by_cases hc : e.st = WlStatus.WL_CONNECTED
  · by_cases hs : s.gWifiState = WifiState.Connected
    · rw [wifiTick_connected_same cfg e s hc hs]
    · rw [wifiTick_connected_other cfg e s hc hs]
  · obtain ⟨_, _, _, _, _, h6, _⟩ := statusNoted_fields e.st s
    cases hs : s.gWifiState with
    | Connecting =>
      rw [wifiTick_connecting cfg e s hc hs]
      split
      · rw [wifiStartPortal_credStore, h6]; rfl
      · split
        · rw [wifiStartPortal_credStore, h6]; rfl
        · exact h6
    | Connected =>
      rw [wifiTick_lost cfg e s hc hs, wifiStartConnecting_credStore, h6]
    | Portal =>
      cases hp : s.gPortalActive with
      | true =>
        rw [wifiTick_portal cfg e s hc hs hp, hsave]
        split
        · exact h6
        · exact h6
      | false => rw [wifiTick_idle cfg e s hc (Or.inr ⟨hs, hp⟩), h6]
    | Error => rw [wifiTick_idle cfg e s hc (Or.inl hs), h6]

theorem credStore_none_applyOp (cfg : Config) (op : WifiOp) (s : Globals)
    (hop : noReconfig op = true) (h : s.credStore = none) :
    (applyOp cfg s op).credStore = none := by
  cases op with
  | startConnecting now st =>
    show (wifiStartConnecting cfg now st s).credStore = none
    rw [wifiStartConnecting_credStore, h]
  | startPortal b now =>
    show (wifiStartPortal cfg b now s).credStore = none
    rw [wifiStartPortal_credStore, h]
    cases b <;> rfl
  | tick e =>
    show (wifiTick cfg e s).credStore = none
    have hsave : e.portalSave = none := by
      cases hq : e.portalSave with
      | none => rfl
      | some c => simp [noReconfig, hq] at hop
    rw [wifiTick_credStore cfg e s hsave, h]

theorem credStore_none_runOps (cfg : Config) (ops : List WifiOp) (s : Globals)
    (hops : ∀ op ∈ ops, noReconfig op = true) (h : s.credStore = none) :
    (runOps cfg ops s).credStore = none := by
  induction ops generalizing s with
  | nil => exact h
  | cons op rest ih =>
    exact ih (applyOp cfg s op) (fun o ho => hops o (List.mem_cons_of_mem _ ho))
      (credStore_none_applyOp cfg op s (hops op (List.mem_cons_self _ _)) h)

/-- C1: from any initial state with `gWifiState = Connecting` and `gPortalActive = false`,
every state reached by a finite sequence of `wifiStartConnecting`, `wifiStartPortal(b)`
and `wifiTick` calls (any link statuses, any clock values) has `gWifiState` among
Connecting, Connected, Portal, Error, has `gPortalActive` set only in state Portal, and so
never has the portal active while in state Connecting. -/
theorem wifi_portal_only_in_portal_state (cfg : Config) (s0 : Globals) (ops : List WifiOp)
    (_h0 : s0.gWifiState = WifiState.Connecting) (hp0 : s0.gPortalActive = false) :
    ((runOps cfg ops s0).gWifiState = WifiState.Connecting ∨
      (runOps cfg ops s0).gWifiState = WifiState.Connected ∨
      (runOps cfg ops s0).gWifiState = WifiState.Portal ∨
      (runOps cfg ops s0).gWifiState = WifiState.Error) ∧
    ((runOps cfg ops s0).gPortalActive = true →
      (runOps cfg ops s0).gWifiState = WifiState.Portal) ∧
    ¬ ((runOps cfg ops s0).gPortalActive = true ∧
        (runOps cfg ops s0).gWifiState = WifiState.Connecting) := by
  have hinv : PortalInv (runOps cfg ops s0) :=
    portalInv_runOps cfg ops s0 (fun hp => by rw [hp0] at hp; cases hp)
  refine ⟨?_, hinv, ?_⟩
  · cases (runOps cfg ops s0).gWifiState <;> simp
  · rintro ⟨hp, hs⟩
    rw [hinv hp] at hs
    cases hs

theorem wifi_portal_only_in_portal_state_witness :
    exampleBoot.gWifiState = WifiState.Connecting ∧ exampleBoot.gPortalActive = false ∧
    (runOps exampleConfig exampleOps exampleBoot).gWifiState = WifiState.Portal ∧
    ((runOps exampleConfig exampleOps exampleBoot).gPortalActive = true →
      (runOps exampleConfig exampleOps exampleBoot).gWifiState = WifiState.Portal) :=
  ⟨rfl, rfl, by decide,
    (wifi_portal_only_in_portal_state exampleConfig exampleBoot exampleOps rfl rfl).2.1⟩

/-- C2: in state Connecting, one `wifiTick` whose link status is `WL_CONNECT_FAILED` ends
in state Portal with the portal active, whatever the clock readings, and the stored
credentials are the ones stored before (no `resetSettings`). -/
theorem wifiTick_auth_failure_opens_portal (cfg : Config) (e : TickEnv) (s : Globals)
    (hs : s.gWifiState = WifiState.Connecting) (hst : e.st = WlStatus.WL_CONNECT_FAILED) :
    (wifiTick cfg e s).gWifiState = WifiState.Portal ∧
    (wifiTick cfg e s).gPortalActive = true ∧
    (wifiTick cfg e s).credStore = s.credStore := by
  have hc : e.st ≠ WlStatus.WL_CONNECTED := by rw [hst]; decide
  obtain ⟨_, _, _, _, _, h6, _⟩ := statusNoted_fields e.st s
  rw [wifiTick_connecting cfg e s hc hs, if_pos hst]
  refine ⟨(wifiStartPortal_state _ _ _ _).1, (wifiStartPortal_state _ _ _ _).2, ?_⟩
  rw [wifiStartPortal_credStore, h6]
  rfl

theorem wifiTick_auth_failure_opens_portal_witness :
    exampleBoot.gWifiState = WifiState.Connecting ∧
    exampleAuthFail.st = WlStatus.WL_CONNECT_FAILED ∧
    (wifiTick exampleConfig exampleAuthFail exampleBoot).gWifiState = WifiState.Portal ∧
    (wifiTick exampleConfig exampleAuthFail exampleBoot).gPortalActive = true ∧
    (wifiTick exampleConfig exampleAuthFail exampleBoot).credStore = exampleBoot.credStore :=
  ⟨rfl, rfl, wifiTick_auth_failure_opens_portal exampleConfig exampleAuthFail exampleBoot rfl rfl⟩

/-- C3: in state Portal with the session active, one `wifiTick` in which the link is not
connected and the clock exceeds `gPortalDeadlineMs` ends in state Error with
`gLastError = "Portal timeout"`, the portal stopped and the dirty flag set; when the clock
does not exceed the deadline the state stays Portal with the session active. -/
theorem wifiTick_portal_timeout (cfg : Config) (e : TickEnv) (s : Globals)
    (hs : s.gWifiState = WifiState.Portal) (hp : s.gPortalActive = true)
    (hc : e.st ≠ WlStatus.WL_CONNECTED) :
    (e.now > s.gPortalDeadlineMs →
      (wifiTick cfg e s).gWifiState = WifiState.Error ∧
      (wifiTick cfg e s).gLastError = "Portal timeout" ∧
      (wifiTick cfg e s).gPortalActive = false ∧
      (wifiTick cfg e s).gUiDirty = true) ∧
    (¬ e.now > s.gPortalDeadlineMs →
      (wifiTick cfg e s).gWifiState = WifiState.Portal ∧
      (wifiTick cfg e s).gPortalActive = true) := by
  obtain ⟨h1, h2, _, _, _, _, _⟩ := statusNoted_fields e.st s
  obtain ⟨k1, k2, _, _, _, _, _, _⟩ := wmProcess_fields e.portalSave (statusNoted e.st s)
  rw [wifiTick_portal cfg e s hc hs hp]
  constructor
  · intro hd
    rw [if_pos hd]
    exact ⟨rfl, rfl, rfl, rfl⟩
  · intro hd
    rw [if_neg hd, k1, k2, h1, h2]
    exact ⟨hs, hp⟩

theorem wifiTick_portal_timeout_witness :
    examplePortal.gWifiState = WifiState.Portal ∧ examplePortal.gPortalActive = true ∧
    exampleLate.st ≠ WlStatus.WL_CONNECTED ∧
    exampleLate.now > examplePortal.gPortalDeadlineMs ∧
    (wifiTick exampleConfig exampleLate examplePortal).gWifiState = WifiState.Error ∧
    (wifiTick exampleConfig exampleLate examplePortal).gLastError = "Portal timeout" ∧
    (wifiTick exampleConfig exampleLate examplePortal).gPortalActive = false ∧
    (wifiTick exampleConfig exampleLate examplePortal).gUiDirty = true :=
  ⟨rfl, rfl, by decide, by decide,
    (wifiTick_portal_timeout exampleConfig exampleLate examplePortal rfl rfl (by decide)).1
      (by decide)⟩

/-- C4: in every state that satisfies the invariant of C1 (`PortalInv`, which
`portalInv_runOps` gives for every reachable state), one `wifiTick` in which the link
reports connected ends with `gWifiState = Connected` and `gPortalActive = false`; if the
state was already Connected the tick returns the state unchanged, otherwise it sets the
dirty flag. -/
theorem wifiTick_link_connected (cfg : Config) (e : TickEnv) (s : Globals)
    (hinv : PortalInv s) (hc : e.st = WlStatus.WL_CONNECTED) :
    (wifiTick cfg e s).gWifiState = WifiState.Connected ∧
    (wifiTick cfg e s).gPortalActive = false ∧
    (s.gWifiState = WifiState.Connected → wifiTick cfg e s = s) ∧
    (s.gWifiState ≠ WifiState.Connected → (wifiTick cfg e s).gUiDirty = true) := by
  by_cases hs : s.gWifiState = WifiState.Connected
  · rw [wifiTick_connected_same cfg e s hc hs]
    refine ⟨hs, ?_, fun _ => rfl, fun h => absurd hs h⟩
    cases hp : s.gPortalActive with
    | false => rfl
    | true =>
      rw [hinv hp] at hs
      cases hs
  · rw [wifiTick_connected_other cfg e s hc hs]
    exact ⟨rfl, rfl, fun h => absurd h hs, fun _ => rfl⟩

theorem wifiTick_link_connected_witness :
    PortalInv examplePortal ∧ exampleUp.st = WlStatus.WL_CONNECTED ∧
    (wifiTick exampleConfig exampleUp examplePortal).gWifiState = WifiState.Connected ∧
    (wifiTick exampleConfig exampleUp examplePortal).gPortalActive = false ∧
    (examplePortal.gWifiState = WifiState.Connected →
      wifiTick exampleConfig exampleUp examplePortal = examplePortal) ∧
    (examplePortal.gWifiState ≠ WifiState.Connected →
      (wifiTick exampleConfig exampleUp examplePortal).gUiDirty = true) :=
  ⟨fun _ => rfl, rfl,
    wifiTick_link_connected exampleConfig exampleUp examplePortal (fun _ => rfl) rfl⟩

/-- C5: `wifiStartPortal(true)` leaves the credential store empty; after it, and after any
further lifecycle calls during which the portal stores no new configuration, the connect
request issued by `wifiStartConnecting` is either `WiFi.begin(WIFI_SSID, WIFI_PASS)` with
the compile-time secrets or `WiFi.begin()` on the empty store, so it never carries
credentials read from the store and is the same whatever the store held before the
erase; `wifiStartPortal(false)` leaves the credential store unchanged. -/
theorem forget_erases_stored_credentials (cfg : Config) (s : Globals) (now : Nat) :
    (wifiStartPortal cfg true now s).credStore = none ∧
    (∀ (ops : List WifiOp) (now2 : Nat) (st : WlStatus),
      (∀ op ∈ ops, noReconfig op = true) →
      (wifiStartConnecting cfg now2 st
          (runOps cfg ops (wifiStartPortal cfg true now s))).connectCall =
        some (if cfg.WIFI_SSID ≠ "" then ConnectCall.withSecrets cfg.WIFI_SSID cfg.WIFI_PASS
              else ConnectCall.saved none) ∧
      (∀ c : Creds, (wifiStartConnecting cfg now2 st
          (runOps cfg ops (wifiStartPortal cfg true now s))).connectCall ≠
        some (ConnectCall.saved (some c))) ∧
      (∀ old : Option Creds, (wifiStartConnecting cfg now2 st
          (runOps cfg ops (wifiStartPortal cfg true now { s with credStore := old }))).connectCall =
        (wifiStartConnecting cfg now2 st
          (runOps cfg ops (wifiStartPortal cfg true now s))).connectCall)) ∧
    (wifiStartPortal cfg false now s).credStore = s.credStore := by
  have herase : ∀ t : Globals, (wifiStartPortal cfg true now t).credStore = none := by
    intro t
    rw [wifiStartPortal_credStore]
    rfl
  have hcall : ∀ (t : Globals) (ops : List WifiOp) (now2 : Nat) (st : WlStatus),
      (∀ op ∈ ops, noReconfig op = true) →
      (wifiStartConnecting cfg now2 st
          (runOps cfg ops (wifiStartPortal cfg true now t))).connectCall =
        some (if cfg.WIFI_SSID ≠ "" then ConnectCall.withSecrets cfg.WIFI_SSID cfg.WIFI_PASS
              else ConnectCall.saved none) := by
    intro t ops now2 st hops
    rw [wifiStartConnecting_connectCall, credStore_none_runOps cfg ops _ hops (herase t)]
  refine ⟨herase s, ?_, ?_⟩
  · intro ops now2 st hops
    refine ⟨hcall s ops now2 st hops, ?_, ?_⟩
    · intro c
      rw [hcall s ops now2 st hops]
      split <;> simp
    · intro old
      rw [hcall s ops now2 st hops, hcall _ ops now2 st hops]
  · rw [wifiStartPortal_credStore]
    rfl

theorem forget_erases_stored_credentials_witness :
    (wifiStartPortal exampleConfig true 7000 exampleStored).credStore = none ∧
    (∀ op ∈ exampleAfterForget, noReconfig op = true) ∧
    (wifiStartConnecting exampleConfig 200000 WlStatus.WL_DISCONNECTED
        (runOps exampleConfig exampleAfterForget
          (wifiStartPortal exampleConfig true 7000 exampleStored))).connectCall =
      some (ConnectCall.saved none) ∧
    (wifiStartPortal exampleConfig false 7000 exampleStored).credStore =
      some { ssid := "HomeNet", pass := "hunter22" } :=
  ⟨(forget_erases_stored_credentials exampleConfig exampleStored 7000).1,
    by decide,
    ((forget_erases_stored_credentials exampleConfig exampleStored 7000).2.1
      exampleAfterForget 200000 WlStatus.WL_DISCONNECTED (by decide)).1,
    (forget_erases_stored_credentials exampleConfig exampleStored 7000).2.2⟩

/-! ## Theorems: render engine -/

theorem uiDrawFooterWeatherOnly_frame (hw : Hw) (t : String) (s : Globals) :
    ∃ px : Int, (uiDrawFooterWeatherOnly hw t s).1 = { s with gWeatherScrollPx := px } := by
  simp only [uiDrawFooterWeatherOnly]
  split_ifs
  · exact ⟨s.gWeatherScrollPx, rfl⟩
  · exact ⟨0, rfl⟩
  · exact ⟨s.gWeatherScrollPx, rfl⟩

theorem uiDrawFull_frame (hw : Hw) (s : Globals) :
    ∃ px : Int, (uiDrawFull hw s).1 =
      { s with gWeatherScrollPx := px,
               gLastDrawnBatteryPct :=
                 i8 (if s.gBatteryCachedValid then s.gBatteryPctCached else 0 : Nat),
               gLastDrawnCharging :=
                 (if s.gBatteryCachedValid then s.gBatteryChargingCached else false),
               gLastDrawnView := s.gView, gLastDrawnWifiState := s.gWifiState,
               gLastDrawnSSID := hw.ssid, gLastDrawnIP := hw.ip, gLastDrawnRSSI := hw.rssi,
               gLastDrawnError := s.gLastError } := by
  obtain ⟨px, hpx⟩ := uiDrawFooterWeatherOnly_frame hw s.gWeatherText s
  refine ⟨px, ?_⟩
  simp [uiDrawFull, uiDrawFooterFull, hpx]

theorem uiUpdateDynamic_after_snapshot (hw : Hw) (s : Globals)
    (hv : s.gLastDrawnView = s.gView) (hw1 : s.gLastDrawnWifiState = s.gWifiState)
    (h1 : s.gLastDrawnSSID = hw.ssid) (h2 : s.gLastDrawnIP = hw.ip)
    (h3 : s.gLastDrawnRSSI = hw.rssi) (h4 : s.gLastDrawnError = s.gLastError) :
    uiUpdateDynamic hw s = (s, []) := by
  unfold uiUpdateDynamic
  rw [if_neg (by rw [hv]; simp)]
  cases hview : s.gView with
  | Status =>
    by_cases hst : hw.status = WlStatus.WL_CONNECTED <;>
      simp [uiUpdateDynamicStatus, hw1, h1, h2, h3, hst]
  | WiFi =>
    by_cases hst : hw.status = WlStatus.WL_CONNECTED <;>
      simp [uiUpdateDynamicWiFi, hw1, h1, h2, h4, hst]
  | About => rfl


/-- C6: after `uiDrawFull` the render snapshot equals the values the pass was painted
from: the view, the connectivity state, the SSID, address and RSSI readings, the error
text, and the battery percent and charging flag of the cached sample (0 and false while
no sample is cached; the percent itself whenever it is at most 100, as every sample is);
an immediately following `uiUpdateDynamic` with the same readings sends nothing to the
display and returns the state unchanged (no snapshot field changes, the dirty flag is
not touched). -/
theorem full_repaint_snapshot_roundtrip (hw : Hw) (s : Globals) :
    (uiDrawFull hw s).1.gView = s.gView ∧
    (uiDrawFull hw s).1.gWifiState = s.gWifiState ∧
    (uiDrawFull hw s).1.gLastError = s.gLastError ∧
    (uiDrawFull hw s).1.gUiDirty = s.gUiDirty ∧
    (uiDrawFull hw s).1.gLastDrawnView = s.gView ∧
    (uiDrawFull hw s).1.gLastDrawnWifiState = s.gWifiState ∧
    (uiDrawFull hw s).1.gLastDrawnSSID = hw.ssid ∧
    (uiDrawFull hw s).1.gLastDrawnIP = hw.ip ∧
    (uiDrawFull hw s).1.gLastDrawnRSSI = hw.rssi ∧
    (uiDrawFull hw s).1.gLastDrawnError = s.gLastError ∧
    (uiDrawFull hw s).1.gLastDrawnBatteryPct =
      i8 (if s.gBatteryCachedValid then s.gBatteryPctCached else 0 : Nat) ∧
    (uiDrawFull hw s).1.gLastDrawnCharging =
      (if s.gBatteryCachedValid then s.gBatteryChargingCached else false) ∧
    (s.gBatteryCachedValid = true → s.gBatteryPctCached ≤ 100 →
      (uiDrawFull hw s).1.gLastDrawnBatteryPct = s.gBatteryPctCached ∧
      (uiDrawFull hw s).1.gLastDrawnCharging = s.gBatteryChargingCached) ∧
    uiUpdateDynamic hw (uiDrawFull hw s).1 = ((uiDrawFull hw s).1, []) := by
  obtain ⟨px, hpx⟩ := uiDrawFull_frame hw s
  refine ⟨?_, ?_, ?_, ?_, ?_, ?_, ?_, ?_, ?_, ?_, ?_, ?_, ?_, ?_⟩
  case refine_13 =>
    intro hvalid hle
    rw [hpx]
    simp only [hvalid, if_true]
    refine ⟨?_, trivial⟩
    unfold i8
    omega
  case refine_14 =>
    apply uiUpdateDynamic_after_snapshot <;> rw [hpx]
  all_goals (rw [hpx])

theorem full_repaint_snapshot_roundtrip_witness :
    exampleScreen.gBatteryCachedValid = true ∧ exampleScreen.gBatteryPctCached ≤ 100 ∧
    (uiDrawFull exampleHw exampleScreen).1.gLastDrawnBatteryPct = 80 ∧
    (uiDrawFull exampleHw exampleScreen).1.gLastDrawnRSSI = -58 ∧
    uiUpdateDynamic exampleHw (uiDrawFull exampleHw exampleScreen).1 =
      ((uiDrawFull exampleHw exampleScreen).1, []) :=
  ⟨rfl, by decide,
    ((full_repaint_snapshot_roundtrip exampleHw exampleScreen).2.2.2.2.2.2.2.2.2.2.2.2.1
      rfl (by decide)).1,
    (full_repaint_snapshot_roundtrip exampleHw exampleScreen).2.2.2.2.2.2.2.2.1,
    (full_repaint_snapshot_roundtrip exampleHw exampleScreen).2.2.2.2.2.2.2.2.2.2.2.2.2⟩


theorem i16_of_range (x : Int) (h1 : -32768 ≤ x) (h2 : x ≤ 32767) : i16 x = x := by
  unfold i16
  omega

theorem i16_add_two (x : Int) : i16 (i16 x + 2) = i16 (x + 2) := by
  unfold i16
  omega

/-- With a message wider than the ticker, `uiDrawFooterWeatherOnly` changes no variable. -/
theorem uiDrawFooterWeatherOnly_wide (hw : Hw) (t : String) (s : Globals)
    (hwide : hw.textWidth t > i16 (i16 (hw.lcdW - 8 - 28 - 3) - 8 - 8)) :
    (uiDrawFooterWeatherOnly hw t s).1 = s := by
  simp only [uiDrawFooterWeatherOnly]
  split_ifs with h1 h2
  · rfl
  · exact absurd h2 (not_le.mpr hwide)
  · rfl

theorem batterySampleTick_frame (hw : Hw) (now : Nat) (s : Globals) :
    (batterySampleTick hw now s).gWeatherScrollPx = s.gWeatherScrollPx ∧
    (batterySampleTick hw now s).gWeatherText = s.gWeatherText ∧
    (batterySampleTick hw now s).gFooterNextTickMs = s.gFooterNextTickMs := by
  unfold batterySampleTick
  split <;> exact ⟨rfl, rfl, rfl⟩

theorem uiDrawFooterFull_wide_frame (hw : Hw) (b : Bool) (s : Globals)
    (hwide : hw.textWidth s.gWeatherText > i16 (i16 (hw.lcdW - 8 - 28 - 3) - 8 - 8)) :
    (uiDrawFooterFull hw b s).1.gWeatherScrollPx = s.gWeatherScrollPx ∧
    (uiDrawFooterFull hw b s).1.gWeatherText = s.gWeatherText ∧
    (uiDrawFooterFull hw b s).1.gFooterNextTickMs = s.gFooterNextTickMs := by
  simp only [uiDrawFooterFull, uiDrawFooterWeatherOnly_wide hw s.gWeatherText s hwide]
  split_ifs <;> exact ⟨rfl, rfl, rfl⟩

/-- A due footer tick on a message wider than the ticker advances the stored offset by
2 px with 16-bit wrap-around and keeps the message. -/
theorem footerTick_scroll (hw : Hw) (now nowB : Nat) (s : Globals)
    (hdue : s.gFooterNextTickMs ≤ now)
    (hwide : hw.textWidth s.gWeatherText > i16 (i16 (hw.lcdW - 8 - 28 - 3) - 8 - 8)) :
    (footerTick hw now nowB s).1.gWeatherScrollPx = i16 (s.gWeatherScrollPx + 2) ∧
    (footerTick hw now nowB s).1.gWeatherText = s.gWeatherText ∧
    (footerTick hw now nowB s).1.gFooterNextTickMs = u32 (now + 250) := by
  obtain ⟨b1, b2, b3⟩ := batterySampleTick_frame hw nowB
    { s with gFooterNextTickMs := u32 (now + 250),
             gWeatherScrollPx := i16 (s.gWeatherScrollPx + 2) }
  have hwide2 : hw.textWidth (batterySampleTick hw nowB
      { s with gFooterNextTickMs := u32 (now + 250),
               gWeatherScrollPx := i16 (s.gWeatherScrollPx + 2) }).gWeatherText >
      i16 (i16 (hw.lcdW - 8 - 28 - 3) - 8 - 8) := by
    rw [b2]
    exact hwide
  obtain ⟨f1, f2, f3⟩ := uiDrawFooterFull_wide_frame hw false _ hwide2
  have w1 := uiDrawFooterWeatherOnly_wide hw s.gWeatherText (batterySampleTick hw nowB
      { s with gFooterNextTickMs := u32 (now + 250),
               gWeatherScrollPx := i16 (s.gWeatherScrollPx + 2) }) hwide
  simp only [footerTick, if_neg (not_lt.mpr hdue), hwide, decide_True, if_true]
  split_ifs
  · exact ⟨f1.trans b1, f2.trans b2, f3.trans b3⟩
  · rw [w1]
    exact ⟨b1, b2, b3⟩


theorem footerTicks_scroll (hw : Hw) (n : Nat) (s : Globals)
    (hdue : s.gFooterNextTickMs ≤ 250)
    (hwide : hw.textWidth s.gWeatherText > i16 (i16 (hw.lcdW - 8 - 28 - 3) - 8 - 8)) :
    (footerTicks hw (n + 1) s).gWeatherScrollPx = i16 (s.gWeatherScrollPx + 2 * (n + 1 : Nat)) ∧
    (footerTicks hw (n + 1) s).gWeatherText = s.gWeatherText ∧
    (footerTicks hw (n + 1) s).gFooterNextTickMs = u32 (250 * (n + 1) + 250) := by
  induction n with
  | zero =>
    obtain ⟨h1, h2, h3⟩ := footerTick_scroll hw 250 250 s hdue hwide
    exact ⟨h1, h2, h3⟩
  | succ k ih =>
    obtain ⟨i1, i2, i3⟩ := ih
    have hdue2 : (footerTicks hw (k + 1) s).gFooterNextTickMs ≤ 250 * (k + 1 + 1) := by
      rw [i3]
      unfold u32
      omega
    have hwide2 : hw.textWidth (footerTicks hw (k + 1) s).gWeatherText >
        i16 (i16 (hw.lcdW - 8 - 28 - 3) - 8 - 8) := by
      rw [i2]
      exact hwide
    obtain ⟨h1, h2, h3⟩ := footerTick_scroll hw (250 * (k + 1 + 1)) (250 * (k + 1 + 1))
      (footerTicks hw (k + 1) s) hdue2 hwide2
    refine ⟨?_, h2.trans i2, h3⟩
    show (footerTick hw (250 * (k + 1 + 1)) (250 * (k + 1 + 1))
      (footerTicks hw (k + 1) s)).1.gWeatherScrollPx = _
    rw [h1, i1, i16_add_two]
    congr 1
    push_cast
    ring

/-- Starting from offset 0 (as a completed fetch leaves it), 16383 footer ticks on a
message wider than the ticker bring the stored offset to 32766, and the next one to
-32768. -/
theorem footer_scroll_reaches_edge :
    (footerTicks exampleHw 16383 exampleScrollStart).gWeatherScrollPx = 32766 ∧
    (footerTicks exampleHw 16384 exampleScrollStart).gWeatherScrollPx = -32768 := by
  have hdue : exampleScrollStart.gFooterNextTickMs ≤ 250 := by decide
  have hwide : exampleHw.textWidth exampleScrollStart.gWeatherText >
      i16 (i16 (exampleHw.lcdW - 8 - 28 - 3) - 8 - 8) := by decide
  refine ⟨?_, ?_⟩
  · rw [(footerTicks_scroll exampleHw 16382 exampleScrollStart hdue hwide).1]
    decide
  · rw [(footerTicks_scroll exampleHw 16383 exampleScrollStart hdue hwide).1]
    decide

/-- For a stored offset that is not negative, a message wider than the ticker is drawn
twice, at x = -(offset mod period) and x = -(offset mod period) + period with
period = textW + 24, and 0 <= offset mod period < period. -/
theorem uiDrawFooterWeatherOnly_nonneg (hw : Hw) (t : String) (s : Globals)
    (hsprite : s.gTickerSprite = true)
    (hW : s.gTickerW = i16 (i16 (hw.lcdW - 8 - 28 - 3) - 8 - 8))
    (hwide : hw.textWidth t > i16 (i16 (hw.lcdW - 8 - 28 - 3) - 8 - 8))
    (hpos : 0 ≤ hw.textWidth t) (hrange : hw.textWidth t + 24 ≤ 32767)
    (h0 : 0 ≤ s.gWeatherScrollPx) :
    (uiDrawFooterWeatherOnly hw t s).2 =
      [DrawOp.spriteFill Color.Panel, DrawOp.spriteSetTextColor Color.Text Color.Panel,
       DrawOp.spriteDrawString t (-(s.gWeatherScrollPx % (hw.textWidth t + 24)))
         (i16 (Int.tdiv (s.gTickerH - 16) 2)) 2,
       DrawOp.spriteDrawString t
         (-(s.gWeatherScrollPx % (hw.textWidth t + 24)) + (hw.textWidth t + 24))
         (i16 (Int.tdiv (s.gTickerH - 16) 2)) 2,
       DrawOp.spritePush 8 (s.gFooterRect.y + 1)] ∧
    0 ≤ s.gWeatherScrollPx % (hw.textWidth t + 24) ∧
    s.gWeatherScrollPx % (hw.textWidth t + 24) < hw.textWidth t + 24 := by
  have htot : i16 (hw.textWidth t + 24) = hw.textWidth t + 24 :=
    i16_of_range _ (by omega) hrange
  have hpos2 : 0 < hw.textWidth t + 24 := by omega
  have hm0 := Int.emod_nonneg s.gWeatherScrollPx (ne_of_gt hpos2)
  have hm1 := Int.emod_lt_of_pos s.gWeatherScrollPx hpos2
  have hmod : Int.tmod s.gWeatherScrollPx (hw.textWidth t + 24) =
      s.gWeatherScrollPx % (hw.textWidth t + 24) :=
    Int.tmod_eq_emod h0 (le_of_lt hpos2)
  have hscroll : i16 (s.gWeatherScrollPx % (hw.textWidth t + 24)) =
      s.gWeatherScrollPx % (hw.textWidth t + 24) :=
    i16_of_range _ (by omega) (by omega)
  refine ⟨?_, hm0, hm1⟩
  simp only [uiDrawFooterWeatherOnly]
  rw [if_neg (by simp [hsprite, hW]), if_neg (not_le.mpr hwide), htot, hmod, hscroll]


/-- C7 (the code at the failing input): 16384 footer ticks after a fetch published a
message 300 px wide on the 320 px display (period 324) the stored offset is -32768; the
tick that takes the offset from 32766 to -32768 makes `uiDrawFooterWeatherOnly` draw the
message at x = 44 and x = 368, because the remainder it uses is -44, outside the range
0 .. 323, whereas x = -(offset mod period) and x = -(offset mod period) + period are
-280 and 44. -/
theorem footer_scroll_wraps_negative :
    (footerTicks exampleHw 16384 exampleScrollStart).gWeatherScrollPx = -32768 ∧
    (footerTick exampleHw 250 250 exampleScrollEdge).1.gWeatherScrollPx = -32768 ∧
    (footerTick exampleHw 250 250 exampleScrollEdge).2 =
      [DrawOp.spriteFill Color.Panel, DrawOp.spriteSetTextColor Color.Text Color.Panel,
       DrawOp.spriteDrawString exampleScrollEdge.gWeatherText 44 3 2,
       DrawOp.spriteDrawString exampleScrollEdge.gWeatherText 368 3 2,
       DrawOp.spritePush 8 217] ∧
    Int.tmod (-32768) 324 = -44 ∧ Int.emod (-32768) 324 = 280 := by
  refine ⟨footer_scroll_reaches_edge.2, by decide, by decide, by decide, by decide⟩

/-! ## Theorems: background fetch job -/

theorem clipText_of_fits (t : String) (h : t.utf8ByteSize ≤ 159) : clipText t = t := by
  unfold clipText
  rw [if_pos h]

theorem roundHalfEven_nearest (num den : Nat) (hden : 0 < den) :
    2 * num ≤ 2 * (roundHalfEven num den * den) + den ∧
    2 * (roundHalfEven num den * den) ≤ 2 * num + den := by
  have hdm := Nat.div_add_mod num den
  have hlt := Nat.mod_lt num hden
  have hk : num / den * den = den * (num / den) := Nat.mul_comm _ _
  unfold roundHalfEven
  simp only []
  split
  · rw [Nat.add_mul, hk]
    omega
  · rename_i hno
    rw [hk]
    have h2 : ¬ 2 * (num % den) > den := fun h => hno (Or.inl h)
    omega

theorem weatherTaskMain_text (cfg : Config) (reply : Option HttpReply) (now : Nat)
    (s : Globals) :
    (weatherTaskMain cfg reply now s).gWeatherText = clipText (weatherOut cfg reply) := rfl

theorem str_append_cancel (a b c : String) (h : a ++ b = a ++ c) : b = c := by
  have hd := congrArg String.data h
  simp only [String.data_append] at hd
  exact String.ext (List.append_cancel_left hd)

theorem str_take_ne (n : Nat) (a b : String) (h : a.data.take n ≠ b.data.take n) : a ≠ b := by
  intro e
  exact h (by rw [e])

/-- C8: for every decoded HTTP 200 reply whose current temperature `T` is present (not
NaN), with condition code `c`, daily minimum `m`, maximum `M` and condition code `d`,
and whose formatted text fits the 160-byte cell, `weatherTaskMain` publishes
`<label>: <T>°C <cond c> | Today <m>–<M>°C <cond d>`, `cond` being
`wmoCodeToShortText` and each temperature written under `%.0f`: for a finite value its
sign and the integer nearest to its magnitude.  For label DK, T = 9.4, c = 61, m = 5.1,
M = 11.2, d = 3 the text is `DK: 9°C Rain | Today 5–11°C Cloudy`. -/
theorem weather_success_text (cfg : Config) (s : Globals) (now : Nat)
    (T m M : FloatVal) (c d : Int) (hT : T.isnan = false)
    (hfit : (cfg.WEATHER_LABEL ++ ": " ++ fmtF0 T ++ "°C " ++ wmoCodeToShortText c ++
              " | Today " ++ fmtF0 m ++ "–" ++ fmtF0 M ++ "°C " ++
              wmoCodeToShortText d).utf8ByteSize ≤ 159) :
    (weatherTaskMain cfg
        (some { httpCode := 200,
                doc := some { temp := T, code := c, tmax := M, tmin := m, dcode := d } })
        now s).gWeatherText =
      cfg.WEATHER_LABEL ++ ": " ++ fmtF0 T ++ "°C " ++ wmoCodeToShortText c ++
        " | Today " ++ fmtF0 m ++ "–" ++ fmtF0 M ++ "°C " ++ wmoCodeToShortText d ∧
    (∀ (neg : Bool) (num den : Nat), 0 < den →
      fmtF0 (FloatVal.fin neg num den) =
        (if neg then "-" else "") ++ toString (roundHalfEven num den) ∧
      2 * num ≤ 2 * (roundHalfEven num den * den) + den ∧
      2 * (roundHalfEven num den * den) ≤ 2 * num + den) ∧
    (weatherTaskMain { WEATHER_LABEL := "DK" }
        (some { httpCode := 200,
                doc := some { temp := FloatVal.fin false 94 10, code := 61,
                              tmax := FloatVal.fin false 112 10,
                              tmin := FloatVal.fin false 51 10, dcode := 3 } })
        now s).gWeatherText = "DK: 9°C Rain | Today 5–11°C Cloudy" := by
  refine ⟨?_, ?_, ?_⟩
  · rw [weatherTaskMain_text]
    simp only [weatherOut, hT, if_true]
    exact clipText_of_fits _ hfit
  · intro neg num den hden
    exact ⟨rfl, roundHalfEven_nearest num den hden⟩
  · rw [weatherTaskMain_text]
    decide

theorem weather_success_text_witness :
    (FloatVal.fin true 4 10).isnan = false ∧
    (weatherTaskMain exampleConfig
        (some { httpCode := 200,
                doc := some { temp := FloatVal.fin true 4 10, code := 71,
                              tmax := FloatVal.fin false 25 10,
                              tmin := FloatVal.fin true 35 10, dcode := 85 } })
        1000 exampleBoot).gWeatherText = "DK: -0°C Snow | Today -4–2°C Snow showers" ∧
    roundHalfEven 94 10 = 9 ∧ roundHalfEven 51 10 = 5 ∧ roundHalfEven 112 10 = 11 :=
  ⟨rfl,
    (weather_success_text exampleConfig exampleBoot 1000 (FloatVal.fin true 4 10)
      (FloatVal.fin true 35 10) (FloatVal.fin false 25 10) 71 85 rfl (by decide)).1,
    by decide, by decide, by decide⟩


theorem label_suffix_ne (l x y : String) (h : x.data.take 11 ≠ y.data.take 11) :
    l ++ x ≠ l ++ y :=
  fun e => str_take_ne 11 x y h (str_append_cancel l x y e)

theorem weatherOut_tls (cfg : Config) :
    weatherOut cfg none = cfg.WEATHER_LABEL ++ " weather: TLS init failed" := rfl

theorem weatherOut_http (cfg : Config) (c : Int) (body : Option WeatherDoc) (hc : c ≠ 200) :
    weatherOut cfg (some { httpCode := c, doc := body }) =
      cfg.WEATHER_LABEL ++ (" weather: HTTP " ++ toString c) := by
  simp only [weatherOut, hc, if_false, String.append_assoc]

theorem weatherOut_parse (cfg : Config) :
    weatherOut cfg (some { httpCode := 200, doc := none }) =
      cfg.WEATHER_LABEL ++ " weather: parse error" := by
  simp only [weatherOut, if_true]

theorem weatherOut_nan (cfg : Config) (doc : WeatherDoc) (h : doc.temp.isnan = true) :
    weatherOut cfg (some { httpCode := 200, doc := some doc }) =
      cfg.WEATHER_LABEL ++ " weather: update failed" := by
  simp [weatherOut, h]

theorem weatherOut_ok (cfg : Config) (doc : WeatherDoc) (h : doc.temp.isnan = false) :
    weatherOut cfg (some { httpCode := 200, doc := some doc }) =
      cfg.WEATHER_LABEL ++ (": " ++ (fmtF0 doc.temp ++ ("°C " ++ (wmoCodeToShortText doc.code ++
        (" | Today " ++ (fmtF0 doc.tmin ++ ("–" ++ (fmtF0 doc.tmax ++ ("°C " ++
          wmoCodeToShortText doc.dcode))))))))) := by
  simp [weatherOut, h, String.append_assoc]

/-- C9: for every HTTP status code `c` other than 200, whatever the body, the job
publishes `<label> weather: HTTP <c>` when that text fits the 160-byte cell (for label
DK and c = 503: `DK weather: HTTP 503`); on every outcome of the fetch it sets
`gWeatherHasData`, resets the scroll offset to 0, sets `gWeatherNextFetchMs` to
t + 1800000 modulo 2^32 and clears the running flag, publishing the formatted text
whenever it fits; and the texts formatted for the five outcomes (begin failed, HTTP
status, parse error, temperature missing, success) are pairwise distinct. -/
theorem weather_http_error_text (cfg : Config) (s : Globals) (t : Nat) (c : Int)
    (body : Option WeatherDoc) (hc : c ≠ 200)
    (hfit : (cfg.WEATHER_LABEL ++ " weather: HTTP " ++ toString c).utf8ByteSize ≤ 159) :
    (weatherTaskMain cfg (some { httpCode := c, doc := body }) t s).gWeatherText =
      cfg.WEATHER_LABEL ++ " weather: HTTP " ++ toString c ∧
    (weatherTaskMain { WEATHER_LABEL := "DK" } (some { httpCode := 503, doc := body })
      t s).gWeatherText = "DK weather: HTTP 503" ∧
    (∀ reply : Option HttpReply,
      (weatherTaskMain cfg reply t s).gWeatherHasData = true ∧
      (weatherTaskMain cfg reply t s).gWeatherScrollPx = 0 ∧
      (weatherTaskMain cfg reply t s).gWeatherNextFetchMs = (t + 1800000) % 2 ^ 32 ∧
      (weatherTaskMain cfg reply t s).gWeatherTaskRunning = false ∧
      ((weatherOut cfg reply).utf8ByteSize ≤ 159 →
        (weatherTaskMain cfg reply t s).gWeatherText = weatherOut cfg reply)) ∧
    (∀ (good bad : WeatherDoc), good.temp.isnan = false → bad.temp.isnan = true →
      List.Pairwise (fun a b : String => a ≠ b)
        [weatherOut cfg none,
         weatherOut cfg (some { httpCode := c, doc := body }),
         weatherOut cfg (some { httpCode := 200, doc := none }),
         weatherOut cfg (some { httpCode := 200, doc := some bad }),
         weatherOut cfg (some { httpCode := 200, doc := some good })]) := by
  refine ⟨?_, ?_, ?_, ?_⟩
  · rw [weatherTaskMain_text]
    simp only [weatherOut, hc, if_false]
    exact clipText_of_fits _ hfit
  · rw [weatherTaskMain_text, weatherOut_http _ 503 body (by decide)]
    decide
  · intro reply
    refine ⟨rfl, rfl, ?_, rfl, ?_⟩
    · show u32 (t + 30 * 60 * 1000) = _
      unfold u32
      norm_num
    · intro h
      rw [weatherTaskMain_text]
      exact clipText_of_fits _ h
  · intro good bad hgood hbad
    rw [weatherOut_tls, weatherOut_http cfg c body hc, weatherOut_parse,
      weatherOut_nan cfg bad hbad, weatherOut_ok cfg good hgood]
    simp only [List.pairwise_cons, List.mem_cons, List.mem_singleton, List.not_mem_nil,
      forall_eq_or_imp, forall_eq, List.Pairwise.nil, and_true, IsEmpty.forall_iff,
      implies_true]
    refine ⟨⟨?_, ?_, ?_, ?_⟩, ⟨?_, ?_, ?_⟩, ⟨?_, ?_⟩, ?_⟩ <;>
      (apply label_suffix_ne
       simp [String.data_append, List.take_append_eq_append_take])

theorem weather_http_error_text_witness :
    (404 : Int) ≠ 200 ∧
    (weatherTaskMain exampleConfig (some { httpCode := 404, doc := none }) 5000
      exampleBoot).gWeatherText = "DK weather: HTTP 404" ∧
    (weatherTaskMain exampleConfig (some { httpCode := 404, doc := none }) 5000
      exampleBoot).gWeatherNextFetchMs = 1805000 :=
  ⟨by decide,
    (weather_http_error_text exampleConfig exampleBoot 5000 404 none (by decide)
      (by decide)).1,
    by decide⟩


theorem weatherTick_arm (st : WlStatus) (now : Nat) (created : Bool) (s : Globals)
    (hst : st = WlStatus.WL_CONNECTED) (hrun : s.gWeatherTaskRunning = false)
    (hdue : s.gWeatherNextFetchMs ≤ now) :
    weatherTick st now created s =
      if created then
        { s with gWeatherTaskRunning := true, gWeatherTask := true,
                 weatherJobs := s.weatherJobs + 1 }
      else { s with gWeatherTaskRunning := true } := by
  have hnot : ¬ (s.gWeatherNextFetchMs ≠ 0 ∧ now < s.gWeatherNextFetchMs) :=
    fun h => absurd hdue (Nat.not_le.mpr h.2)
  unfold weatherTick
  rw [if_neg (by simp [hst]), if_neg (by simp [hrun]), if_neg hnot]

theorem weatherTick_skip (st : WlStatus) (now : Nat) (created : Bool) (s : Globals)
    (h : ¬ (st = WlStatus.WL_CONNECTED ∧ s.gWeatherTaskRunning = false ∧
            s.gWeatherNextFetchMs ≤ now)) :
    weatherTick st now created s = s := by
  unfold weatherTick
  by_cases hst : st = WlStatus.WL_CONNECTED
  · rw [if_neg (by simp [hst])]
    cases hrun : s.gWeatherTaskRunning with
    | true => simp
    | false =>
      have hlt : now < s.gWeatherNextFetchMs := by
        by_contra hge
        exact h ⟨hst, hrun, Nat.le_of_not_lt hge⟩
      have hne : s.gWeatherNextFetchMs ≠ 0 := by omega
      simp [hne, hlt]
  · rw [if_pos hst]

theorem weatherInv_step (cfg : Config) (ev : WeatherEvent) (s : Globals) (h : WeatherInv s) :
    WeatherInv (weatherStep cfg s ev) := by
  obtain ⟨hle, hrun⟩ := h
  cases ev with
  | tick st now created =>
    show WeatherInv (weatherTick st now created s)
    by_cases hc : st = WlStatus.WL_CONNECTED ∧ s.gWeatherTaskRunning = false ∧
        s.gWeatherNextFetchMs ≤ now
    · rw [weatherTick_arm st now created s hc.1 hc.2.1 hc.2.2]
      have hzero : s.weatherJobs = 0 := by
        by_contra hne
        have hone : s.weatherJobs = 1 := by omega
        rw [hrun hone] at hc
        exact Bool.noConfusion hc.2.1
      cases created with
      | true => exact ⟨by simp [hzero], fun _ => rfl⟩
      | false => exact ⟨by simp [hzero], fun _ => rfl⟩
    · rw [weatherTick_skip st now created s hc]
      exact ⟨hle, hrun⟩
  | complete reply now =>
    show WeatherInv (if s.weatherJobs = 0 then s else weatherTaskMain cfg reply now s)
    split
    · exact ⟨hle, hrun⟩
    · refine ⟨?_, ?_⟩
      · show s.weatherJobs - 1 ≤ 1
        omega
      · intro h1
        have h2 : s.weatherJobs - 1 = 1 := h1
        omega

theorem weatherInv_run (cfg : Config) (evs : List WeatherEvent) (s : Globals)
    (h : WeatherInv s) : WeatherInv (weatherRun cfg evs s) := by
  induction evs generalizing s with
  | nil => exact h
  | cons ev rest ih => exact ih (weatherStep cfg s ev) (weatherInv_step cfg ev s h)

/-- C10: `weatherTick` arms a fetch job (sets `gWeatherTaskRunning` and calls
`xTaskCreatePinnedToCore`, which adds a job when it succeeds) exactly when the link is
connected, no job is running and the clock has reached `gWeatherNextFetchMs`; in every
other case it returns the state unchanged.  The next-due time is 0 at program start, so
the first tick on a connected link arms at once.  Hence, starting without a job, every
interleaving of `weatherTick` calls and job completions has at most one job in flight. -/
theorem weather_single_job_in_flight (cfg : Config) (s : Globals) (st : WlStatus) (now : Nat)
    (created : Bool) :
    ((st = WlStatus.WL_CONNECTED ∧ s.gWeatherTaskRunning = false ∧
        s.gWeatherNextFetchMs ≤ now) →
      weatherTick st now created s =
        if created then
          { s with gWeatherTaskRunning := true, gWeatherTask := true,
                   weatherJobs := s.weatherJobs + 1 }
        else { s with gWeatherTaskRunning := true }) ∧
    (¬ (st = WlStatus.WL_CONNECTED ∧ s.gWeatherTaskRunning = false ∧
        s.gWeatherNextFetchMs ≤ now) →
      weatherTick st now created s = s) ∧
    (weatherTick WlStatus.WL_CONNECTED now created exampleBoot).gWeatherTaskRunning = true ∧
    (∀ evs : List WeatherEvent, s.weatherJobs = 0 →
      (weatherRun cfg evs s).weatherJobs ≤ 1) := by
  refine ⟨fun h => weatherTick_arm st now created s h.1 h.2.1 h.2.2,
    weatherTick_skip st now created s, ?_, ?_⟩
  · rw [weatherTick_arm WlStatus.WL_CONNECTED now created exampleBoot rfl rfl (Nat.zero_le _)]
    cases created <;> rfl
  · intro evs h0
    exact (weatherInv_run cfg evs s ⟨by omega, fun h1 => by omega⟩).1

theorem weather_single_job_in_flight_witness :
    exampleBoot.weatherJobs = 0 ∧
    (weatherRun exampleConfig exampleFetches exampleBoot).weatherJobs = 1 ∧
    (weatherRun exampleConfig exampleFetches exampleBoot).weatherJobs ≤ 1 :=
  ⟨rfl, by decide,
    (weather_single_job_in_flight exampleConfig exampleBoot WlStatus.WL_CONNECTED 0
      true).2.2.2 exampleFetches rfl⟩


/-! ## Theorems: lifecycle retries, timeouts and the Error state -/

theorem wifiStartConnecting_fields (cfg : Config) (t : Nat) (st : WlStatus) (s : Globals) :
    (wifiStartConnecting cfg t st s).gLastError = "" ∧
    (wifiStartConnecting cfg t st s).gWifiDeadlineMs = (t + 30000) % 2 ^ 32 ∧
    (wifiStartConnecting cfg t st s).gUiDirty = true ∧
    (wifiStartConnecting cfg t st s).gPortalDeadlineMs = s.gPortalDeadlineMs := by
  cases hp : s.gPortalActive <;> by_cases hc : cfg.WIFI_SSID = "" <;>
    simp [wifiStartConnecting, uiMarkDirty, hp, hc, u32, kConnectTimeoutMs]

theorem wifiStartConnecting_twice (cfg : Config) (t : Nat) (st0 st : WlStatus) (s : Globals) :
    wifiStartConnecting cfg t st (wifiStartConnecting cfg t st0 s) =
      wifiStartConnecting cfg t st s := by
  cases hp : s.gPortalActive <;> by_cases hc : cfg.WIFI_SSID = "" <;>
    simp [wifiStartConnecting, uiMarkDirty, hp, hc]

/-- C12: `wifiStartConnecting` is idempotent: for every state `s` and clock value `t`,
calling it twice at time `t` gives the same state as calling it once (whatever status the
first call read, the result is that of the single call with the status read last); that
state has `gWifiState = Connecting`, `gPortalActive = false`, `gLastError` empty,
`gWifiDeadlineMs = t + 30000` modulo 2^32 and the dirty flag set, also when `s` is
already Connecting. -/
theorem wifiStartConnecting_idempotent (cfg : Config) (s : Globals) (t : Nat)
    (st0 st : WlStatus) :
    wifiStartConnecting cfg t st (wifiStartConnecting cfg t st s) =
      wifiStartConnecting cfg t st s ∧
    wifiStartConnecting cfg t st (wifiStartConnecting cfg t st0 s) =
      wifiStartConnecting cfg t st s ∧
    (wifiStartConnecting cfg t st s).gWifiState = WifiState.Connecting ∧
    (wifiStartConnecting cfg t st s).gPortalActive = false ∧
    (wifiStartConnecting cfg t st s).gLastError = "" ∧
    (wifiStartConnecting cfg t st s).gWifiDeadlineMs = (t + 30000) % 2 ^ 32 ∧
    (wifiStartConnecting cfg t st s).gUiDirty = true :=
  ⟨wifiStartConnecting_twice cfg t st st s, wifiStartConnecting_twice cfg t st0 st s,
    (wifiStartConnecting_state cfg t st s).1, (wifiStartConnecting_state cfg t st s).2,
    (wifiStartConnecting_fields cfg t st s).1, (wifiStartConnecting_fields cfg t st s).2.1,
    (wifiStartConnecting_fields cfg t st s).2.2.1⟩

/-- C13: in state Connected, one `wifiTick` at clock time `e.now` in which the link is
not connected ends in state Connecting (not Error, not Portal) with `gLastError` empty,
`gWifiDeadlineMs = e.now + 30000` modulo 2^32, the portal inactive and the dirty flag
set. -/
theorem wifiTick_link_lost_retries (cfg : Config) (e : TickEnv) (s : Globals)
    (hs : s.gWifiState = WifiState.Connected) (hc : e.st ≠ WlStatus.WL_CONNECTED) :
    (wifiTick cfg e s).gWifiState = WifiState.Connecting ∧
    (wifiTick cfg e s).gWifiState ≠ WifiState.Error ∧
    (wifiTick cfg e s).gWifiState ≠ WifiState.Portal ∧
    (wifiTick cfg e s).gLastError = "" ∧
    (wifiTick cfg e s).gWifiDeadlineMs = (e.now + 30000) % 2 ^ 32 ∧
    (wifiTick cfg e s).gPortalActive = false ∧
    (wifiTick cfg e s).gUiDirty = true := by
  rw [wifiTick_lost cfg e s hc hs]
  obtain ⟨h1, h2⟩ := wifiStartConnecting_state cfg e.now e.st2 (statusNoted e.st s)
  obtain ⟨f1, f2, f3, _⟩ := wifiStartConnecting_fields cfg e.now e.st2 (statusNoted e.st s)
  refine ⟨h1, ?_, ?_, f1, f2, h2, f3⟩
  · rw [h1]; decide
  · rw [h1]; decide

theorem wifiTick_link_lost_retries_witness :
    exampleOnline.gWifiState = WifiState.Connected ∧
    exampleLate.st ≠ WlStatus.WL_CONNECTED ∧
    (wifiTick exampleConfig exampleLate exampleOnline).gWifiState = WifiState.Connecting ∧
    (wifiTick exampleConfig exampleLate exampleOnline).gWifiDeadlineMs = 210001 :=
  ⟨rfl, by decide,
    (wifiTick_link_lost_retries exampleConfig exampleLate exampleOnline rfl (by decide)).1,
    (wifiTick_link_lost_retries exampleConfig exampleLate exampleOnline rfl
      (by decide)).2.2.2.2.1⟩


theorem wifiTick_error_frame (cfg : Config) (e : TickEnv) (s : Globals)
    (hs : s.gWifiState = WifiState.Error) (hc : e.st ≠ WlStatus.WL_CONNECTED) :
    (wifiTick cfg e s).gWifiState = WifiState.Error ∧
    (wifiTick cfg e s).gPortalActive = s.gPortalActive ∧
    (wifiTick cfg e s).gLastError = s.gLastError ∧
    (wifiTick cfg e s).gWifiDeadlineMs = s.gWifiDeadlineMs ∧
    (wifiTick cfg e s).gPortalDeadlineMs = s.gPortalDeadlineMs := by
  obtain ⟨h1, h2, h3, h4, h5, _, _⟩ := statusNoted_fields e.st s
  rw [wifiTick_idle cfg e s hc (Or.inl hs)]
  exact ⟨h1.trans hs, h2, h3, h4, h5⟩

theorem runTicks_error_frame (cfg : Config) (es : List TickEnv) (s : Globals)
    (hs : s.gWifiState = WifiState.Error)
    (hes : ∀ e ∈ es, e.st ≠ WlStatus.WL_CONNECTED) :
    (runTicks cfg es s).gWifiState = WifiState.Error ∧
    (runTicks cfg es s).gPortalActive = s.gPortalActive ∧
    (runTicks cfg es s).gLastError = s.gLastError ∧
    (runTicks cfg es s).gWifiDeadlineMs = s.gWifiDeadlineMs ∧
    (runTicks cfg es s).gPortalDeadlineMs = s.gPortalDeadlineMs := by
  induction es generalizing s with
  | nil => exact ⟨hs, rfl, rfl, rfl, rfl⟩
  | cons e rest ih =>
    obtain ⟨t1, t2, t3, t4, t5⟩ :=
      wifiTick_error_frame cfg e s hs (hes e (List.mem_cons_self _ _))
    obtain ⟨r1, r2, r3, r4, r5⟩ :=
      ih (wifiTick cfg e s) t1 (fun x hx => hes x (List.mem_cons_of_mem _ hx))
    exact ⟨r1, r2.trans t2, r3.trans t3, r4.trans t4, r5.trans t5⟩

/-- C14: from a state with `gWifiState = Error`, every finite sequence of `wifiTick` calls
in which the link never reports connected, whatever the clock readings and statuses,
ends with `gWifiState = Error` and with `gPortalActive`, `gLastError` and both deadlines
unchanged; the state is left by `wifiStartConnecting` (to Connecting), by
`wifiStartPortal` (to Portal) and by a tick that sees the link connected (to Connected). -/
theorem error_state_is_terminal (cfg : Config) (s : Globals) (es : List TickEnv)
    (hs : s.gWifiState = WifiState.Error)
    (hes : ∀ e ∈ es, e.st ≠ WlStatus.WL_CONNECTED) :
    (runTicks cfg es s).gWifiState = WifiState.Error ∧
    (runTicks cfg es s).gPortalActive = s.gPortalActive ∧
    (runTicks cfg es s).gLastError = s.gLastError ∧
    (runTicks cfg es s).gWifiDeadlineMs = s.gWifiDeadlineMs ∧
    (runTicks cfg es s).gPortalDeadlineMs = s.gPortalDeadlineMs ∧
    (∀ (now : Nat) (st : WlStatus),
      (wifiStartConnecting cfg now st s).gWifiState = WifiState.Connecting) ∧
    (∀ (b : Bool) (now : Nat), (wifiStartPortal cfg b now s).gWifiState = WifiState.Portal) ∧
    (∀ e : TickEnv, e.st = WlStatus.WL_CONNECTED →
      (wifiTick cfg e s).gWifiState = WifiState.Connected) := by
  obtain ⟨r1, r2, r3, r4, r5⟩ := runTicks_error_frame cfg es s hs hes
  refine ⟨r1, r2, r3, r4, r5, fun now st => (wifiStartConnecting_state cfg now st s).1,
    fun b now => (wifiStartPortal_state cfg b now s).1, ?_⟩
  intro e he
  rw [wifiTick_connected_other cfg e s he (by rw [hs]; decide)]

theorem error_state_is_terminal_witness :
    exampleFailed.gWifiState = WifiState.Error ∧
    (∀ e ∈ exampleIdleTicks, e.st ≠ WlStatus.WL_CONNECTED) ∧
    (runTicks exampleConfig exampleIdleTicks exampleFailed).gWifiState = WifiState.Error ∧
    (runTicks exampleConfig exampleIdleTicks exampleFailed).gLastError = "Portal timeout" :=
  ⟨rfl, by decide,
    (error_state_is_terminal exampleConfig exampleFailed exampleIdleTicks rfl (by decide)).1,
    (error_state_is_terminal exampleConfig exampleFailed exampleIdleTicks rfl
      (by decide)).2.2.1⟩


/-- While the deadline `t + 30000` does not pass 2^32 and the clock has not wrapped since
`t`, a tick in state Connecting that sees neither a connected link nor an authentication
failure opens the portal (credentials kept) once more than 30000 ms have elapsed since
`wifiStartConnecting` and keeps Connecting until then. -/
theorem connect_timeout_without_wrap (cfg : Config) (s : Globals) (t : Nat) (st0 : WlStatus)
    (e : TickEnv) (ht : t + 30000 < 2 ^ 32) (hu : t ≤ e.now)
    (hc : e.st ≠ WlStatus.WL_CONNECTED) (hf : e.st ≠ WlStatus.WL_CONNECT_FAILED) :
    (e.now - t > 30000 →
      (wifiTick cfg e (wifiStartConnecting cfg t st0 s)).gWifiState = WifiState.Portal ∧
      (wifiTick cfg e (wifiStartConnecting cfg t st0 s)).credStore = s.credStore) ∧
    (e.now - t ≤ 30000 →
      (wifiTick cfg e (wifiStartConnecting cfg t st0 s)).gWifiState = WifiState.Connecting) := by
  obtain ⟨h1, _⟩ := wifiStartConnecting_state cfg t st0 s
  obtain ⟨_, f2, _, _⟩ := wifiStartConnecting_fields cfg t st0 s
  obtain ⟨n1, _, _, _, _, n6, _⟩ := statusNoted_fields e.st (wifiStartConnecting cfg t st0 s)
  have hd : (wifiStartConnecting cfg t st0 s).gWifiDeadlineMs = t + 30000 := by
    rw [f2]
    exact Nat.mod_eq_of_lt ht
  rw [wifiTick_connecting cfg e _ hc h1, if_neg hf, hd]
  constructor
  · intro hgt
    rw [if_pos (by omega)]
    refine ⟨(wifiStartPortal_state _ _ _ _).1, ?_⟩
    rw [wifiStartPortal_credStore, n6, wifiStartConnecting_credStore]
    rfl
  · intro hle
    rw [if_neg (by omega), n1]
    exact h1

/-- C17 (the code at the failing inputs): a connection attempt started at
t = 4294960000 stores the deadline 22704, and a tick 10 ms later (link disconnected)
already opens the portal; an attempt started at t = 4294937295 stores the deadline
4294967295, and ticks 30001 ms and 130001 ms later, after the clock has wrapped to 0 and
100000, leave the state Connecting. -/
theorem connect_timeout_breaks_at_clock_wrap :
    (wifiStartConnecting exampleConfig 4294960000 WlStatus.WL_DISCONNECTED
      exampleBoot).gWifiDeadlineMs = 22704 ∧
    u32 (4294960010 + 4294967296 - 4294960000) = 10 ∧
    (wifiTick exampleConfig { st := WlStatus.WL_DISCONNECTED, now := 4294960010 }
      (wifiStartConnecting exampleConfig 4294960000 WlStatus.WL_DISCONNECTED
        exampleBoot)).gWifiState = WifiState.Portal ∧
    (wifiStartConnecting exampleConfig 4294937295 WlStatus.WL_DISCONNECTED
      exampleBoot).gWifiDeadlineMs = 4294967295 ∧
    u32 (0 + 4294967296 - 4294937295) = 30001 ∧
    (wifiTick exampleConfig { st := WlStatus.WL_DISCONNECTED, now := 0 }
      (wifiStartConnecting exampleConfig 4294937295 WlStatus.WL_DISCONNECTED
        exampleBoot)).gWifiState = WifiState.Connecting ∧
    u32 (100000 + 4294967296 - 4294937295) = 130001 ∧
    (wifiTick exampleConfig { st := WlStatus.WL_DISCONNECTED, now := 100000 }
      (wifiStartConnecting exampleConfig 4294937295 WlStatus.WL_DISCONNECTED
        exampleBoot)).gWifiState = WifiState.Connecting := by
  refine ⟨by decide, by decide, by decide, by decide, by decide, by decide, by decide,
    by decide⟩

/-! ## Theorems: power policy -/

/-- C16: for every clock value `now`, last-interaction time (a `uint32_t`) and applied
level, `powerTick` leaves `gCurrentBrightness` at the dim level 12 if the elapsed time
`now - gLastInteractionMs` modulo 2^32 exceeds 20000 ms and at the active level 60
otherwise, changes no other variable, and calls `setBrightness` exactly when that target
differs from the level applied before; two situations with the same elapsed time get the
same target. -/
theorem powerTick_target (now : Nat) (s : Globals)
    (hl : s.gLastInteractionMs < 4294967296) :
    (powerTick now s).1.gCurrentBrightness =
      (if ((now : Int) - s.gLastInteractionMs) % 4294967296 > 20000 then 12 else 60) ∧
    (powerTick now s).1 = { s with gCurrentBrightness := (powerTick now s).1.gCurrentBrightness } ∧
    ((powerTick now s).2 = true ↔
      (if ((now : Int) - s.gLastInteractionMs) % 4294967296 > 20000 then 12 else 60) ≠
        s.gCurrentBrightness) ∧
    (∀ (now2 : Nat) (s2 : Globals), s2.gLastInteractionMs < 4294967296 →
      ((now2 : Int) - s2.gLastInteractionMs) % 4294967296 =
        ((now : Int) - s.gLastInteractionMs) % 4294967296 →
      (powerTick now2 s2).1.gCurrentBrightness = (powerTick now s).1.gCurrentBrightness) := by
  have key : ∀ (n : Nat) (t : Globals), t.gLastInteractionMs < 4294967296 →
      (powerTick n t).1.gCurrentBrightness =
        (if ((n : Int) - t.gLastInteractionMs) % 4294967296 > 20000 then 12 else 60) ∧
      ((powerTick n t).2 = true ↔
        (if ((n : Int) - t.gLastInteractionMs) % 4294967296 > 20000 then 12 else 60) ≠
          t.gCurrentBrightness) := by
    intro n t ht
    have hel : ((u32 (n + 4294967296 - t.gLastInteractionMs) : Nat) : Int) =
        ((n : Int) - t.gLastInteractionMs) % 4294967296 := by
      unfold u32
      omega
    by_cases hdim : ((n : Int) - t.gLastInteractionMs) % 4294967296 > 20000
    · have hn : u32 (n + 4294967296 - t.gLastInteractionMs) > 20000 := by omega
      by_cases hb : (12 : Nat) = t.gCurrentBrightness
      · simp [powerTick, hn, hdim, kDimAfterMs, kBrightnessDim, hb.symm]
      · have hb2 : ¬ t.gCurrentBrightness = 12 := fun h => hb h.symm
        simp [powerTick, hn, hdim, kDimAfterMs, kBrightnessDim, hb, hb2]
    · have hn : ¬ u32 (n + 4294967296 - t.gLastInteractionMs) > 20000 := by omega
      by_cases hb : (60 : Nat) = t.gCurrentBrightness
      · simp [powerTick, hn, hdim, kDimAfterMs, kBrightnessActive, hb.symm]
      · have hb2 : ¬ t.gCurrentBrightness = 60 := fun h => hb h.symm
        simp [powerTick, hn, hdim, kDimAfterMs, kBrightnessActive, hb, hb2]
  refine ⟨(key now s hl).1, ?_, (key now s hl).2, ?_⟩
  · simp only [powerTick]
    split_ifs <;> rfl
  · intro now2 s2 hl2 hsame
    rw [(key now2 s2 hl2).1, (key now s hl).1, hsame]

theorem powerTick_target_witness :
    exampleIdle.gLastInteractionMs < 4294967296 ∧
    (powerTick 5000 exampleIdle).1.gCurrentBrightness = 12 ∧
    (powerTick 5000 exampleIdle).2 = true :=
  ⟨by decide,
    (powerTick_target 5000 exampleIdle (by decide)).1.trans (by decide),
    by decide⟩


/-! ## Theorems: footer ticker with a message that fits -/

theorem uiDrawFooterWeatherOnly_cases (hw : Hw) (t : String) (s : Globals) :
    (uiDrawFooterWeatherOnly hw t s).1 = s ∨
    (uiDrawFooterWeatherOnly hw t s).1 = { s with gWeatherScrollPx := 0 } := by
  simp only [uiDrawFooterWeatherOnly]
  split_ifs
  · exact Or.inl rfl
  · exact Or.inr rfl
  · exact Or.inl rfl

theorem uiDrawFooterWeatherOnly_ticker (hw : Hw) (t : String) (s : Globals) :
    SameTicker (uiDrawFooterWeatherOnly hw t s).1 s ∧
    (s.gWeatherScrollPx = 0 → (uiDrawFooterWeatherOnly hw t s).1.gWeatherScrollPx = 0) := by
  rcases uiDrawFooterWeatherOnly_cases hw t s with h | h <;> rw [h]
  · exact ⟨⟨rfl, rfl, rfl, rfl, rfl⟩, fun h0 => h0⟩
  · exact ⟨⟨rfl, rfl, rfl, rfl, rfl⟩, fun _ => rfl⟩

theorem uiDrawFooterFull_ticker (hw : Hw) (b : Bool) (s : Globals) :
    SameTicker (uiDrawFooterFull hw b s).1 s ∧
    (s.gWeatherScrollPx = 0 → (uiDrawFooterFull hw b s).1.gWeatherScrollPx = 0) := by
  obtain ⟨⟨k1, k2, k3, k4, k5⟩, k0⟩ := uiDrawFooterWeatherOnly_ticker hw s.gWeatherText s
  simp only [uiDrawFooterFull]
  split_ifs
  all_goals first
    | exact ⟨⟨rfl, rfl, rfl, rfl, rfl⟩, fun h0 => h0⟩
    | exact ⟨⟨k1, k2, k3, k4, k5⟩, k0⟩

theorem batterySampleTick_ticker (hw : Hw) (now : Nat) (s : Globals) :
    SameTicker (batterySampleTick hw now s) s ∧
    (batterySampleTick hw now s).gWeatherScrollPx = s.gWeatherScrollPx := by
  unfold batterySampleTick
  split <;> exact ⟨⟨rfl, rfl, rfl, rfl, rfl⟩, rfl⟩

theorem sameTicker_trans {a b c : Globals} (h1 : SameTicker a b) (h2 : SameTicker b c) :
    SameTicker a c :=
  ⟨h1.1.trans h2.1, h1.2.1.trans h2.2.1, h1.2.2.1.trans h2.2.2.1,
    h1.2.2.2.1.trans h2.2.2.2.1, h1.2.2.2.2.trans h2.2.2.2.2⟩

/-- A footer tick on a message that fits keeps the ticker set-up and an offset of 0. -/
theorem footerTick_fits (hw : Hw) (now nowB : Nat) (s : Globals)
    (hfit : hw.textWidth s.gWeatherText ≤ i16 (i16 (hw.lcdW - 8 - 28 - 3) - 8 - 8))
    (h0 : s.gWeatherScrollPx = 0) :
    SameTicker (footerTick hw now nowB s).1 s ∧
    (footerTick hw now nowB s).1.gWeatherScrollPx = 0 := by
  have hnot : ¬ hw.textWidth s.gWeatherText > i16 (i16 (hw.lcdW - 8 - 28 - 3) - 8 - 8) :=
    not_lt.mpr hfit
  obtain ⟨b1, b2⟩ := batterySampleTick_ticker hw nowB
    { s with gFooterNextTickMs := u32 (now + 250) }
  obtain ⟨f1, f2⟩ := uiDrawFooterFull_ticker hw false
    (batterySampleTick hw nowB { s with gFooterNextTickMs := u32 (now + 250) })
  have hs1 : SameTicker { s with gFooterNextTickMs := u32 (now + 250) } s :=
    ⟨rfl, rfl, rfl, rfl, rfl⟩
  simp only [footerTick, hnot, decide_False, Bool.false_eq_true, if_false]
  split_ifs
  · exact ⟨⟨rfl, rfl, rfl, rfl, rfl⟩, h0⟩
  · exact ⟨sameTicker_trans f1 (sameTicker_trans b1 hs1), f2 (b2.trans h0)⟩
  · exact ⟨sameTicker_trans b1 hs1, b2.trans h0⟩


theorem runFooterTicks_fits (ticks : List (Hw × Nat × Nat)) (s : Globals)
    (hfits : ∀ r ∈ ticks,
      r.1.textWidth s.gWeatherText ≤ i16 (i16 (r.1.lcdW - 8 - 28 - 3) - 8 - 8))
    (h0 : s.gWeatherScrollPx = 0) :
    SameTicker (runFooterTicks ticks s) s ∧ (runFooterTicks ticks s).gWeatherScrollPx = 0 := by
  induction ticks generalizing s with
  | nil => exact ⟨⟨rfl, rfl, rfl, rfl, rfl⟩, h0⟩
  | cons r rest ih =>
    obtain ⟨t1, t2⟩ := footerTick_fits r.1 r.2.1 r.2.2 s (hfits r (List.mem_cons_self _ _)) h0
    have hrest : ∀ x ∈ rest, x.1.textWidth (footerTick r.1 r.2.1 r.2.2 s).1.gWeatherText ≤
        i16 (i16 (x.1.lcdW - 8 - 28 - 3) - 8 - 8) := by
      intro x hx
      rw [t1.1]
      exact hfits x (List.mem_cons_of_mem _ hx)
    obtain ⟨r1, r2⟩ := ih (footerTick r.1 r.2.1 r.2.2 s).1 hrest t2
    exact ⟨sameTicker_trans r1 t1, r2⟩

theorem uiDrawFooterWeatherOnly_fits (hw : Hw) (t : String) (s : Globals)
    (hsprite : s.gTickerSprite = true)
    (hW : s.gTickerW = i16 (i16 (hw.lcdW - 8 - 28 - 3) - 8 - 8))
    (hfit : hw.textWidth t ≤ i16 (i16 (hw.lcdW - 8 - 28 - 3) - 8 - 8)) :
    uiDrawFooterWeatherOnly hw t s =
      ({ s with gWeatherScrollPx := 0 },
        [DrawOp.spriteFill Color.Panel, DrawOp.spriteSetTextColor Color.Text Color.Panel,
         DrawOp.spriteDrawString t 0 (i16 (Int.tdiv (s.gTickerH - 16) 2)) 2,
         DrawOp.spritePush 8 (s.gFooterRect.y + 1)]) := by
  simp only [uiDrawFooterWeatherOnly]
  rw [if_neg (by simp [hsprite, hW]), if_pos hfit]

/-- C15: for a message whose text width is at most the available footer width, shown on
the ticker sprite set up by `uiInit`, a footer tick that starts with scroll offset 0
leaves the offset at 0; `uiDrawFooterWeatherOnly` sends exactly one text to the sprite,
the message at x = 0, and leaves the offset 0; and after any number of footer ticks the
offset is still 0, the message is the same and `uiDrawFooterWeatherOnly` draws exactly
what it drew before the ticks. -/
theorem footer_fitting_message_is_static (hw : Hw) (s : Globals)
    (ticks : List (Hw × Nat × Nat))
    (hsprite : s.gTickerSprite = true)
    (hW : s.gTickerW = i16 (i16 (hw.lcdW - 8 - 28 - 3) - 8 - 8))
    (hfit : hw.textWidth s.gWeatherText ≤ i16 (i16 (hw.lcdW - 8 - 28 - 3) - 8 - 8))
    (hfits : ∀ r ∈ ticks,
      r.1.textWidth s.gWeatherText ≤ i16 (i16 (r.1.lcdW - 8 - 28 - 3) - 8 - 8))
    (h0 : s.gWeatherScrollPx = 0) :
    (∀ now nowB : Nat, (footerTick hw now nowB s).1.gWeatherScrollPx = 0) ∧
    (uiDrawFooterWeatherOnly hw s.gWeatherText s).2 =
      [DrawOp.spriteFill Color.Panel, DrawOp.spriteSetTextColor Color.Text Color.Panel,
       DrawOp.spriteDrawString s.gWeatherText 0 (i16 (Int.tdiv (s.gTickerH - 16) 2)) 2,
       DrawOp.spritePush 8 (s.gFooterRect.y + 1)] ∧
    (uiDrawFooterWeatherOnly hw s.gWeatherText s).1.gWeatherScrollPx = 0 ∧
    (runFooterTicks ticks s).gWeatherScrollPx = 0 ∧
    (runFooterTicks ticks s).gWeatherText = s.gWeatherText ∧
    (uiDrawFooterWeatherOnly hw (runFooterTicks ticks s).gWeatherText
        (runFooterTicks ticks s)).2 =
      (uiDrawFooterWeatherOnly hw s.gWeatherText s).2 := by
  obtain ⟨⟨k1, k2, k3, k4, k5⟩, k0⟩ := runFooterTicks_fits ticks s hfits h0
  have hfit2 : hw.textWidth (runFooterTicks ticks s).gWeatherText ≤
      i16 (i16 (hw.lcdW - 8 - 28 - 3) - 8 - 8) := by
    rw [k1]
    exact hfit
  refine ⟨fun now nowB => (footerTick_fits hw now nowB s hfit h0).2, ?_, ?_, k0, k1, ?_⟩
  · rw [uiDrawFooterWeatherOnly_fits hw _ s hsprite hW hfit]
  · rw [uiDrawFooterWeatherOnly_fits hw _ s hsprite hW hfit]
  · rw [uiDrawFooterWeatherOnly_fits hw _ s hsprite hW hfit,
      uiDrawFooterWeatherOnly_fits hw _ (runFooterTicks ticks s) (k2.trans hsprite)
        (k3.trans hW) hfit2, k1, k4, k5]

theorem footer_fitting_message_is_static_witness :
    exampleScreen.gTickerSprite = true ∧
    exampleScreen.gTickerW = i16 (i16 (exampleHwShort.lcdW - 8 - 28 - 3) - 8 - 8) ∧
    exampleHwShort.textWidth exampleScreen.gWeatherText ≤
      i16 (i16 (exampleHwShort.lcdW - 8 - 28 - 3) - 8 - 8) ∧
    exampleScreen.gWeatherScrollPx = 0 ∧
    (runFooterTicks exampleFooterTicks exampleScreen).gWeatherScrollPx = 0 ∧
    (uiDrawFooterWeatherOnly exampleHwShort exampleScreen.gWeatherText exampleScreen).2 =
      [DrawOp.spriteFill Color.Panel, DrawOp.spriteSetTextColor Color.Text Color.Panel,
       DrawOp.spriteDrawString "Weather: (waiting for WiFi)" 0 3 2,
       DrawOp.spritePush 8 217] :=
  ⟨by decide, by decide, by decide, by decide,
    (footer_fitting_message_is_static exampleHwShort exampleScreen exampleFooterTicks
      (by decide) (by decide) (by decide) (by decide) (by decide)).2.2.2.1,
    by decide⟩


/-! ## Theorems: input dispatch -/

theorem inputTick_eq (cfg : Config) (inp : InputEnv) (s : Globals) :
    inputTick cfg inp s =
      if (inputNav inp s).gView ≠ View.WiFi then (inputNav inp s, [])
      else if inp.hitPortal then
        (wifiStartPortal cfg false inp.now (noteInteraction inp.now (inputNav inp s)),
          [WifiOp.startPortal false inp.now])
      else if inp.hitRetry then
        (wifiStartConnecting cfg inp.now inp.st (noteInteraction inp.now (inputNav inp s)),
          [WifiOp.startConnecting inp.now inp.st])
      else if inp.hitForget then
        (wifiStartPortal cfg true inp.now (noteInteraction inp.now (inputNav inp s)),
          [WifiOp.startPortal true inp.now])
      else (inputNav inp s, []) := rfl

theorem inputNav_fields (inp : InputEnv) (s : Globals) :
    (inputNav inp s).gView = viewAtDispatch inp s.gView ∧
    (inputNav inp s).gWifiState = s.gWifiState ∧
    (inputNav inp s).gPortalActive = s.gPortalActive ∧
    (inputNav inp s).gWifiDeadlineMs = s.gWifiDeadlineMs ∧
    (inputNav inp s).gPortalDeadlineMs = s.gPortalDeadlineMs := by
  cases h1 : inp.swipeLeft <;> cases h2 : inp.swipeRight <;> cases h3 : inp.tabStatus <;>
    cases h4 : inp.tabWiFi <;> cases h5 : inp.tabAbout <;>
    simp [inputNav, viewAtDispatch, uiMarkDirty, noteInteraction, h1, h2, h3, h4, h5]

theorem wifiStartPortal_gView (cfg : Config) (b : Bool) (now : Nat) (s : Globals) :
    (wifiStartPortal cfg b now s).gView = s.gView := by
  cases hp : s.gPortalActive <;> cases b <;> simp [wifiStartPortal, uiMarkDirty, hp]

theorem wifiStartConnecting_gView (cfg : Config) (now : Nat) (st : WlStatus) (s : Globals) :
    (wifiStartConnecting cfg now st s).gView = s.gView := by
  cases hp : s.gPortalActive <;> by_cases hc : cfg.WIFI_SSID = "" <;>
    simp [wifiStartConnecting, uiMarkDirty, hp, hc]

theorem loopButtons_fields (cfg : Config) (inp : InputEnv) (s : Globals) :
    (loopButtons cfg inp s).2 = (if inp.btnA then [WifiOp.startPortal false inp.now] else []) ∧
    (inp.btnA = false →
      (loopButtons cfg inp s).1.gWifiState = s.gWifiState ∧
      (loopButtons cfg inp s).1.gPortalActive = s.gPortalActive ∧
      (loopButtons cfg inp s).1.gWifiDeadlineMs = s.gWifiDeadlineMs ∧
      (loopButtons cfg inp s).1.gPortalDeadlineMs = s.gPortalDeadlineMs) ∧
    (inp.btnA = true →
      (loopButtons cfg inp s).1.gWifiState = WifiState.Portal ∧
      (loopButtons cfg inp s).1.gPortalActive = true ∧
      (loopButtons cfg inp s).1.gPortalDeadlineMs = (inp.now + 180000) % 2 ^ 32) := by
  cases hp : s.gPortalActive <;> cases ha : inp.btnA <;> cases hb : inp.btnB <;>
    cases hc : inp.btnC <;>
    simp [loopButtons, wifiStartPortal, uiMarkDirty, noteInteraction, ha, hb, hc, hp, u32,
      kPortalTimeoutMs]


/-- C11 (counterexample): in the Status view, with no navigation, a press of hardware
button A makes the button handling of `loop` call `wifiStartPortal(false)`: the view is
still Status, and `gWifiState`, `gPortalActive` and `gPortalDeadlineMs` have changed.
The following `inputTick` dispatches nothing and keeps the view. -/
theorem button_a_opens_portal_outside_wifi_view :
    exampleOnline.gView = View.Status ∧
    exampleOnline.gWifiState = WifiState.Connected ∧
    exampleOnline.gPortalActive = false ∧
    exampleOnline.gPortalDeadlineMs = 0 ∧
    (loopButtons exampleConfig examplePressA exampleOnline).2 =
      [WifiOp.startPortal false 1000] ∧
    (loopButtons exampleConfig examplePressA exampleOnline).1.gView = View.Status ∧
    (loopButtons exampleConfig examplePressA exampleOnline).1.gWifiState = WifiState.Portal ∧
    (loopButtons exampleConfig examplePressA exampleOnline).1.gPortalActive = true ∧
    (loopButtons exampleConfig examplePressA exampleOnline).1.gPortalDeadlineMs = 181000 ∧
    (inputTick exampleConfig examplePressA
      (loopButtons exampleConfig examplePressA exampleOnline).1).2 = [] ∧
    (inputTick exampleConfig examplePressA
      (loopButtons exampleConfig examplePressA exampleOnline).1).1.gView = View.Status := by
  refine ⟨rfl, rfl, rfl, rfl, by decide, by decide, by decide, by decide, by decide,
    by decide, by decide⟩

/-- C11 (amended): `inputTick` (swipes, taps on tabs and on the Portal, Retry and Forget
hit-regions) makes a lifecycle call only if the view is WiFi when the call is dispatched,
that is after its own navigation; the call is `wifiStartPortal(false)`,
`wifiStartConnecting` or `wifiStartPortal(true)`; with the view at dispatch Status or
About it makes no call and leaves `gWifiState`, `gPortalActive` and both deadlines
unchanged.  In the button handling of `loop`, buttons B and C only navigate, and button A
calls `wifiStartPortal(false)` in every view; without a press of button A that handling
leaves the four variables unchanged. -/
theorem lifecycle_actions_need_wifi_view_or_button_a (cfg : Config) (inp : InputEnv)
    (s : Globals) :
    (inputTick cfg inp s).1.gView = viewAtDispatch inp s.gView ∧
    ((inputTick cfg inp s).2 ≠ [] → viewAtDispatch inp s.gView = View.WiFi) ∧
    (∀ op ∈ (inputTick cfg inp s).2,
      op = WifiOp.startPortal false inp.now ∨ op = WifiOp.startConnecting inp.now inp.st ∨
      op = WifiOp.startPortal true inp.now) ∧
    (viewAtDispatch inp s.gView ≠ View.WiFi →
      (inputTick cfg inp s).2 = [] ∧
      (inputTick cfg inp s).1.gWifiState = s.gWifiState ∧
      (inputTick cfg inp s).1.gPortalActive = s.gPortalActive ∧
      (inputTick cfg inp s).1.gWifiDeadlineMs = s.gWifiDeadlineMs ∧
      (inputTick cfg inp s).1.gPortalDeadlineMs = s.gPortalDeadlineMs) ∧
    (loopButtons cfg inp s).2 =
      (if inp.btnA then [WifiOp.startPortal false inp.now] else []) ∧
    (inp.btnA = false →
      (loopButtons cfg inp s).1.gWifiState = s.gWifiState ∧
      (loopButtons cfg inp s).1.gPortalActive = s.gPortalActive ∧
      (loopButtons cfg inp s).1.gWifiDeadlineMs = s.gWifiDeadlineMs ∧
      (loopButtons cfg inp s).1.gPortalDeadlineMs = s.gPortalDeadlineMs) ∧
    (inp.btnA = true →
      (loopButtons cfg inp s).1.gWifiState = WifiState.Portal ∧
      (loopButtons cfg inp s).1.gPortalActive = true ∧
      (loopButtons cfg inp s).1.gPortalDeadlineMs = (inp.now + 180000) % 2 ^ 32) := by
  obtain ⟨n1, n2, n3, n4, n5⟩ := inputNav_fields inp s
  obtain ⟨l1, l2, l3⟩ := loopButtons_fields cfg inp s
  refine ⟨?_, ?_, ?_, ?_, l1, l2, l3⟩
  · rw [inputTick_eq]
    split_ifs
    · exact n1
    · rw [wifiStartPortal_gView]; exact n1
    · rw [wifiStartConnecting_gView]; exact n1
    · rw [wifiStartPortal_gView]; exact n1
    · exact n1
  · intro hcalls
    by_contra hview
    apply hcalls
    rw [inputTick_eq, if_pos (by rw [n1]; exact hview)]
  · intro op hop
    rw [inputTick_eq] at hop
    split_ifs at hop
    · cases hop
    · exact Or.inl (List.mem_singleton.mp hop)
    · exact Or.inr (Or.inl (List.mem_singleton.mp hop))
    · exact Or.inr (Or.inr (List.mem_singleton.mp hop))
    · cases hop
  · intro hview
    rw [inputTick_eq, if_pos (by rw [n1]; exact hview)]
    exact ⟨rfl, n2, n3, n4, n5⟩

theorem lifecycle_actions_need_wifi_view_or_button_a_witness :
    viewAtDispatch exampleTapRetry exampleOnline.gView ≠ View.WiFi ∧
    (inputTick exampleConfig exampleTapRetry exampleOnline).2 = [] ∧
    (inputTick exampleConfig exampleTapRetry exampleOnline).1.gWifiState =
      WifiState.Connected ∧
    viewAtDispatch exampleSwipeAndRetry exampleOnline.gView = View.WiFi ∧
    (inputTick exampleConfig exampleSwipeAndRetry exampleOnline).2 =
      [WifiOp.startConnecting 1000 WlStatus.WL_DISCONNECTED] :=
  ⟨by decide,
    ((lifecycle_actions_need_wifi_view_or_button_a exampleConfig exampleTapRetry
      exampleOnline).2.2.2.1 (by decide)).1,
    ((lifecycle_actions_need_wifi_view_or_button_a exampleConfig exampleTapRetry
      exampleOnline).2.2.2.1 (by decide)).2.1,
    (lifecycle_actions_need_wifi_view_or_button_a exampleConfig exampleSwipeAndRetry
      exampleOnline).2.1 (by decide),
    by decide⟩


end WeatherStation
